import Mathlib

/-!
Verification of the nekro-sense control tools (tools/nekroctl.py and
tools/nekroctl_gui.py): a shallow embedding of the attribute codec, the
CLI leaf commands and their exit codes, the privilege-escalation decision
procedure, and the debounced change coalescer, together with theorems
settling the specification claims.
-/

deriving instance DecidableEq for Except

namespace Nekro

/-! ### Python-level string primitives -/

/-- Whitespace characters recognised by Python's str.strip(). -/
def pyIsWs (c : Char) : Bool :=
  c = ' ' || c = '\t' || c = '\n' || c = '\x0d' || c = '\x0b' || c = '\x0c'

/-- Python str.strip(): drop whitespace from both ends. -/
def pyStrip (s : String) : String :=
  ⟨((s.data.dropWhile pyIsWs).reverse.dropWhile pyIsWs).reverse⟩

/-- Python str.lower() restricted to ASCII, which is all the tools use. -/
def pyLower (s : String) : String :=
  ⟨s.data.map Char.toLower⟩

/-- Boolean substring test on character lists (Python's `needle in hay`). -/
def listInfixB (nd : List Char) : List Char → Bool
  | [] => nd.isEmpty
  | c :: rest => nd.isPrefixOf (c :: rest) || listInfixB nd rest

/-- Python's `needle in hay` on strings. -/
def strContains (hay nd : String) : Bool :=
  listInfixB nd.data hay.data

/-- Whether `s` starts with `pre` (Python str.startswith). -/
def strStarts (s pre : String) : Bool :=
  pre.data.isPrefixOf s.data

/-- Python's `a or b` for strings: `b` when `a` is empty. -/
def orS (a b : String) : String :=
  if a = "" then b else a

/-- Lexicographic order on character lists by code point, as Python compares
strings. -/
def listLe : List Char → List Char → Bool
  | [], _ => true
  | _ :: _, [] => false
  | a :: as, b :: bs => if a = b then listLe as bs else decide (a < b)

/-- A left-to-right traversal stopping at the first exception, as a Python
list comprehension does. -/
def mapExcept (f : α → Except ε β) : List α → Except ε (List β)
  | [] => .ok []
  | x :: xs =>
    match f x with
    | .error e => .error e
    | .ok y =>
      match mapExcept f xs with
      | .error e => .error e
      | .ok ys => .ok (y :: ys)

/-- Whether an Except value carries a result. -/
def exceptOk : Except ε α → Bool
  | .ok _ => true
  | .error _ => false

/-- Split a character list at underscores (for Python int literals, where
single underscores may separate digit groups). -/
def splitUnd : List Char → List (List Char)
  | [] => [[]]
  | c :: rest =>
    match splitUnd rest with
    | [] => [[]]
    | g :: gs => if c = '_' then [] :: g :: gs else (c :: g) :: gs

/-- The digit part of Python int(str): nonempty underscore-separated groups
of decimal digits, none of them empty. -/
def pyIntNat (l : List Char) : Option Nat :=
  if l = [] then none
  else
    let groups := splitUnd l
    if groups.any (fun g => g.isEmpty || g.any (fun c => !c.isDigit)) then none
    else some ((groups.foldl (· ++ ·) []).foldl (fun n c => 10 * n + (c.toNat - 48)) 0)

/-- Python int(str) after stripping: an optional sign followed by digits. -/
def pyIntL : List Char → Option Int
  | [] => none
  | c :: rest =>
    if c = '-' then (pyIntNat rest).map (fun n => -(n : Int))
    else if c = '+' then (pyIntNat rest).map (fun n => (n : Int))
    else (pyIntNat (c :: rest)).map (fun n => (n : Int))

/-- Python int(str): optional surrounding whitespace, optional sign, decimal
digits with single underscores allowed between digit groups. -/
def pyInt (s : String) : Option Int :=
  pyIntL (pyStrip s).data

/-! ### Attribute paths (module-level constants of nekroctl.py) -/

def SYSFS_BASE : String :=
  "/sys/module/nekro_sense/drivers/platform:acer-wmi/acer-wmi"
def KB_PER_ZONE : String := SYSFS_BASE ++ "/four_zoned_kb/per_zone_mode"
def KB_FOUR_MODE : String := SYSFS_BASE ++ "/four_zoned_kb/four_zone_mode"
def LOGO_COLOR : String := SYSFS_BASE ++ "/back_logo/color"
def SENSE_PRED : String := SYSFS_BASE ++ "/predator_sense"
def SENSE_NITRO : String := SYSFS_BASE ++ "/nitro_sense"
def PLATFORM_PROFILE : String := "/sys/firmware/acpi/platform_profile"
def PLATFORM_PROFILE_CHOICES : String :=
  "/sys/firmware/acpi/platform_profile_choices"

/-- MODE_NAME_TO_ID of nekroctl.py, in its insertion order. -/
def MODE_NAME_TO_ID : List (String × Int) :=
  [("static", 0), ("breathing", 1), ("neon", 2), ("wave", 3),
   ("shifting", 4), ("zoom", 5), ("meteor", 6), ("twinkling", 7)]

/-! ### Input validation helpers of nekroctl.py -/

/-- The characters accepted by _parse_hex_color's membership test. -/
def hexCharList : List Char := "0123456789abcdefABCDEF".data

/-- The function _parse_hex_color of nekroctl.py: strip whitespace, drop one
leading hash sign, require exactly six characters from the hex alphabet,
return them lowercased. -/
def parse_hex_color (s0 : String) : Except String String :=
  let s := pyStrip s0
  let s := if strStarts s "#" then s.drop 1 else s
  if s.length ≠ 6 || s.data.any (fun c => !(hexCharList.contains c)) then
    .error ("Invalid color '" ++ s ++ "'. Use RRGGBB or #RRGGBB.")
  else
    .ok (pyLower s)

/-- The function _parse_percent of nekroctl.py with allow_zero_auto = true
(the only way the tools call it). -/
def parse_percent (v : String) : Except String Int :=
  match pyInt v with
  | none => .error "Expected integer percentage"
  | some i =>
    if i = 0 then .ok 0
    else if !(1 ≤ i && i ≤ 100) then
      .error "Percentage must be between 1 and 100 (or 0 for auto)"
    else .ok i

/-- The function _parse_percent_or_auto of nekroctl.py. -/
def parse_percent_or_auto (v : String) : Except String Int :=
  let s := pyLower (pyStrip v)
  if s = "auto" || s = "a" then .ok 0
  else parse_percent s

/-- The function _parse_on_off of nekroctl.py. -/
def parse_on_off (v : String) : Except String Int :=
  let s := pyLower (pyStrip v)
  if ["1", "on", "true", "yes", "y", "enable", "enabled"].contains s then .ok 1
  else if ["0", "off", "false", "no", "n", "disable", "disabled"].contains s then .ok 0
  else .error "Expected on/off (or 1/0, true/false, yes/no)"

/-! ### The privilege escalator of nekroctl_gui.py

A world fixes the observable behaviour of the three external invocations the
GUI can make for one argument vector: the plain re-invocation of the CLI, the
invocation under sudo -n, and the invocation under pkexec, each yielding an
exit code and raw stdout/stderr text, plus whether the sudo and pkexec
binaries are installed. -/

/-- Exit code and raw stdout/stderr of one external invocation. -/
structure ProcResult where
  code : Int
  out : String
  err : String
deriving DecidableEq, Repr

/-- The environment run_privileged operates in. -/
structure World where
  haveSudo : Bool
  havePkexec : Bool
  unpriv : ProcResult
  sudoProc : ProcResult
  pkexecProc : ProcResult
deriving DecidableEq, Repr

/-- Strip the captured stdout/stderr, as every runner in the GUI does. -/
def stripProc (r : ProcResult) : ProcResult :=
  ⟨r.code, pyStrip r.out, pyStrip r.err⟩

/-- The function _run_nekroctl of nekroctl_gui.py. -/
def _run_nekroctl (w : World) : ProcResult := stripProc w.unpriv

/-- The function _run_with_sudo of nekroctl_gui.py: a missing sudo binary is
reported as exit 127 with a fixed message. -/
def _run_with_sudo (w : World) : ProcResult :=
  if w.haveSudo then stripProc w.sudoProc else ⟨127, "", "sudo not found"⟩

/-- The function _run_with_pkexec of nekroctl_gui.py. -/
def _run_with_pkexec (w : World) : ProcResult :=
  if w.havePkexec then stripProc w.pkexecProc
  else ⟨127, "", "pkexec not found; install policykit-1"⟩

/-- The perm_denied test of run_privileged (lines 136-144 of
nekroctl_gui.py): exit code 3 or one of five substrings of the lowercased
stderr. -/
def permDeniedB (r : ProcResult) : Bool :=
  decide (r.code = 3)
  || strContains (pyLower r.err) "permission denied"
  || strContains (pyLower r.err) "operation not permitted"
  || strContains (pyLower r.err) "not authorized"
  || strContains (pyLower r.err) "authentication is required"
  || strContains (pyLower r.err) "must be root"

/-- The sudo_requires_password test of run_privileged (lines 157-166 of
nekroctl_gui.py), with Python's precedence: the bare "password" conjunct
binds with ("authentication" or "is required"). -/
def sudoRequiresPasswordB (r : ProcResult) : Bool :=
  decide (r.code = 127)
  || strContains (pyLower r.err) "a password is required"
  || (strContains (pyLower r.err) "password"
      && (strContains (pyLower r.err) "authentication"
          || strContains (pyLower r.err) "is required"))
  || strContains (pyLower r.err) "no tty present"
  || strContains (pyLower r.err) "unable to authenticate"
  || strContains (pyLower r.err) "sorry, you must have a tty to run sudo"

/-- The message a failed invocation presents: stderr, else stdout, else a
generic line naming the exit code. -/
def failMsg (r : ProcResult) : String :=
  orS r.err (orS r.out ("Failed with code " ++ toString r.code))

/-- Outcome of run_privileged, instrumented with which escalated runners
were invoked. -/
structure PrivOutcome where
  ok : Bool
  msg : String
  ranSudo : Bool
  ranPkexec : Bool
deriving DecidableEq, Repr

/-- The function run_privileged of nekroctl_gui.py (lines 122-180). -/
def run_privileged (w : World) : PrivOutcome :=
  let r1 := _run_nekroctl w
  if r1.code = 0 then ⟨true, orS r1.out "OK", false, false⟩
  else if !permDeniedB r1 then
    ⟨false, orS r1.err (orS r1.out ("Failed with code " ++ toString r1.code)),
     false, false⟩
  else
    let r2 := _run_with_sudo w
    if r2.code = 0 then ⟨true, orS r2.out "OK", true, false⟩
    else if sudoRequiresPasswordB r2 then
      let r3 := _run_with_pkexec w
      if r3.code = 0 then ⟨true, orS r3.out "OK", true, true⟩
      else
        ⟨false,
         orS r3.err (orS r3.out (orS r2.err (orS r2.out
           (orS r1.err (orS r1.out ("Failed with code " ++ toString r3.code)))))),
         true, true⟩
    else
      ⟨false,
       orS r2.err (orS r2.out (orS r1.err (orS r1.out
         ("Failed with code " ++ toString r2.code)))),
       true, false⟩

/-- Case-insensitive substring containment, as the claims state it: both
sides lowercased. -/
def containsCI (hay nd : String) : Prop :=
  strContains (pyLower hay) (pyLower nd) = true

instance (hay nd : String) : Decidable (containsCI hay nd) := by
  unfold containsCI; infer_instance

/-- A failure is permission-related, in the words of the specification. -/
def permRelatedSpec (r : ProcResult) : Prop :=
  r.code = 3
  ∨ containsCI r.err "permission denied"
  ∨ containsCI r.err "operation not permitted"
  ∨ containsCI r.err "not authorized"
  ∨ containsCI r.err "authentication is required"
  ∨ containsCI r.err "must be root"

/-- A sudo failure requires interactive authentication, in the words of the
specification. -/
def requiresInteractiveSpec (r : ProcResult) : Prop :=
  r.code = 127
  ∨ containsCI r.err "a password is required"
  ∨ (containsCI r.err "password"
     ∧ (containsCI r.err "authentication" ∨ containsCI r.err "is required"))
  ∨ containsCI r.err "no tty present"
  ∨ containsCI r.err "unable to authenticate"
  ∨ containsCI r.err "sorry, you must have a tty to run sudo"

instance (r : ProcResult) : Decidable (permRelatedSpec r) := by
  unfold permRelatedSpec; infer_instance

instance (r : ProcResult) : Decidable (requiresInteractiveSpec r) := by
  unfold requiresInteractiveSpec; infer_instance

/-! ### The change coalescer of nekroctl_gui.py

The per-zone debounce machinery (_per_zone_touch, _tick and
_apply_per_zone_now, lines 485-545) is modelled as a state machine over
microsecond timestamps. A touch event is one user intent: it updates the
widget-derived argument signature and the last-change timestamp and makes
sure the 100 ms polling timer is armed. A tick event is one run of _tick: if
the timer is armed and at least the settle delay has passed since the last
change, _apply_per_zone_now runs (skipping the dispatch when the signature
equals the last successfully applied one) and the timer disarms. The success
oracle tells whether the dispatched run_privileged invocation succeeds, in
which case the applied baseline is updated. -/

/-- PER_ZONE_DELAY_US of nekroctl_gui.py. -/
def PER_ZONE_DELAY_US : Nat := 400000

/-- State of the per-zone coalescer for one setting key. -/
structure CoState where
  lastChange : Nat
  timerOn : Bool
  payload : String
  lastApplied : Option String
  dispatches : List String
deriving DecidableEq, Repr

/-- One event seen by the coalescer: a user intent carrying the
widget-computed argument signature, or a timer poll. -/
inductive CoEv where
  | touch (t : Nat) (p : String)
  | tick (t : Nat)
deriving DecidableEq, Repr

/-- The function _apply_per_zone_now of nekroctl_gui.py: drop the payload if
it equals the last applied signature, otherwise dispatch it through
run_privileged_async; the completion callback records the new baseline only
on success. -/
def applyPerZoneNow (ok : String → Bool) (s : CoState) : CoState :=
  if s.lastApplied = some s.payload then s
  else if ok s.payload then
    { s with dispatches := s.dispatches ++ [s.payload],
             lastApplied := some s.payload }
  else
    { s with dispatches := s.dispatches ++ [s.payload] }

/-- One step of the coalescer. A touch mirrors _per_zone_touch: stamp the
change time, record the current widget signature, arm the timer if idle. A
tick mirrors _tick: fire only when armed and the settle delay has elapsed
since the last change. -/
def coStep (ok : String → Bool) (s : CoState) : CoEv → CoState
  | .touch t p => { s with lastChange := t, payload := p, timerOn := true }
  | .tick t =>
    if s.timerOn then
      if s.lastChange + PER_ZONE_DELAY_US ≤ t then
        { applyPerZoneNow ok s with timerOn := false }
      else s
    else s

/-- Run the coalescer over a list of events. -/
def coRun (ok : String → Bool) (s : CoState) (evs : List CoEv) : CoState :=
  evs.foldl (coStep ok) s

/-- A burst: each entry is one intent (time, signature) followed by the poll
times that occur before the next intent. -/
def burstEvents : List (Nat × String × List Nat) → List CoEv
  | [] => []
  | (t, p, ticks) :: rest =>
    CoEv.touch t p :: (ticks.map CoEv.tick ++ burstEvents rest)

/-- Well-formedness of a burst: consecutive intents are separated by less
than the settle delay, and the polls recorded after an intent occur no later
than the next intent. -/
def burstWF : List (Nat × String × List Nat) → Bool
  | (t, _, ticks) :: (t', p', ticks') :: rest =>
    decide (t' < t + PER_ZONE_DELAY_US) && ticks.all (fun τ => decide (τ ≤ t'))
      && burstWF ((t', p', ticks') :: rest)
  | _ => true

/-! ### The CLI leaf commands of nekroctl.py

The sysfs tree is abstracted as which paths are present, the text each one
holds, and which ones the process may write. A leaf command runs against
such a tree and ends the way the Python process would: a normal return with
printed lines, argparse help shown for missing arguments, SystemExit with an
integer or string code, FileNotFoundError, PermissionError, or another
exception. mainExit is the except-chain of main (lines 529-549). -/

/-- The sysfs tree as the CLI observes it. -/
structure FS where
  present : String → Bool
  content : String → String
  writable : String → Bool

/-- The function _read_text of nekroctl.py: read and strip. Only reachable
after the path was checked to be present. -/
def readText (fs : FS) (p : String) : String := pyStrip (fs.content p)

/-- How the Python process for one leaf invocation ends. -/
inductive PyExit where
  | ret (lines : List String)
  | helpShown
  | sysExitInt (n : Int)
  | sysExitStr (msg : String)
  | fileNotFound (msg : String)
  | permissionErr
  | otherError (msg : String)
deriving DecidableEq, Repr

/-- The writes a leaf performed: (path, exact text written). -/
abbrev Writes := List (String × String)

/-- The except-chain of main (lines 529-549 of nekroctl.py): SystemExit
preserves an integer code, a string code is converted with int() and falls
back to 1; FileNotFoundError is 2, PermissionError is 3, anything else 1. -/
def mainExit : PyExit → Int
  | .ret _ => 0
  | .helpShown => 0
  | .sysExitInt n => n
  | .sysExitStr m => match pyInt m with | some n => n | none => 1
  | .fileNotFound _ => 2
  | .permissionErr => 3
  | .otherError _ => 1

/-- The function _write_text of nekroctl.py followed by the leaf's OK print:
writing a missing path raises FileNotFoundError, a present but protected
path raises PermissionError. -/
def writeOut (fs : FS) (p payload : String) (okLines : List String) :
    PyExit × Writes :=
  if !fs.present p then (.fileNotFound p, [])
  else if !fs.writable p then (.permissionErr, [])
  else (.ret okLines, [(p, payload)])

/-- The function _detect_sense_dir of nekroctl.py: prefer predator_sense,
fall back to nitro_sense. -/
def detect_sense_dir (fs : FS) : Option String :=
  if fs.present SENSE_PRED then some SENSE_PRED
  else if fs.present SENSE_NITRO then some SENSE_NITRO
  else none

/-- The path _fan_path of nekroctl.py resolves to, before its existence
check. -/
def fanPathModel (fs : FS) : Option String :=
  (detect_sense_dir fs).map (· ++ "/fan_speed")

/-- The path _battery_limit_path of nekroctl.py resolves to, before its
existence check. -/
def batteryPathModel (fs : FS) : Option String :=
  (detect_sense_dir fs).map (· ++ "/battery_limiter")

/-- The error message of cmd_rgb_effect for a mode that is neither a known
name nor an integer. -/
def unknownModeMsg (mode : String) : String :=
  "Unknown mode '" ++ mode ++
    "'. Use one of: static, breathing, neon, wave, shifting, zoom, meteor, twinkling or 0-7."

/-- Mode resolution of cmd_rgb_effect (lines 161-172): a case-insensitive
table name, else Python int() of the original text, else the unknown-mode
error. -/
def resolveModeId (mode : String) : Except String Int :=
  match MODE_NAME_TO_ID.lookup (pyLower mode) with
  | some i => .ok i
  | none =>
    match pyInt mode with
    | some n => .ok n
    | none => .error (unknownModeMsg mode)

/-- Mode resolution followed by the 0-7 range check of cmd_rgb_effect
(line 176). -/
def modeIdOrErr (mode : String) : Except String Int :=
  match resolveModeId mode with
  | .error e => .error e
  | .ok n => if !((0 : Int) ≤ n && n ≤ 7) then .error "Mode must be 0-7" else .ok n

/-- Value of one lowercase hexadecimal digit. -/
def hexVal (c : Char) : Nat := if c.isDigit then c.toNat - 48 else c.toNat - 87

/-- Python int(two hex digits, 16). -/
def hexByte (a b : Char) : Nat := 16 * hexVal a + hexVal b

/-- A value that is a Python str or a Python int (cmd_fan_set keeps fan
values in either form before its final validation). -/
inductive PyVal where
  | s (v : String)
  | i (n : Int)
deriving DecidableEq, Repr

/-- Python str() of such a value. -/
def pyStr : PyVal → String
  | .s v => v
  | .i n => toString n

/-- One leaf command of the CLI with its parsed arguments. Arguments that
argparse would hand over as absent (showing help) are modelled only where
the leaf function itself checks for them. -/
inductive LeafCmd where
  | rgbPerZone (colors : List String) (brightness : Int)
  | rgbPerZoneGet
  | rgbEffect (mode : String) (speed brightness direction : Int)
      (color : Option String)
  | rgbEffectGet
  | powerGet
  | powerList
  | powerSet (mode : String)
  | logoGet
  | logoSet (color : String) (brightness : Int) (on_ off_ : Bool)
  | fanGet
  | fanAuto
  | fanSet (values : List String) (cpu gpu : Option String)
  | batteryGet
  | batteryOn
  | batteryOff
  | batterySet (mode : String)
deriving DecidableEq, Repr

/-- The choice set cmd_power_set builds from platform_profile_choices:
split on spaces, strip, drop empties (list order kept; Python uses a set,
whose only observable uses are membership and a sorted join). -/
def powerChoices (fs : FS) : List String :=
  ((readText fs PLATFORM_PROFILE_CHOICES).splitOn " ").map pyStrip
    |>.filter (fun c => c ≠ "")

/-- Sorted deduplicated choices, as in the unsupported-profile message. -/
def sortedChoices (fs : FS) : List String :=
  (powerChoices fs).dedup.mergeSort (fun a b => listLe a.data b.data)

/-- Run one leaf command of nekroctl.py against a sysfs tree, yielding the
process end and the writes performed. Each branch mirrors the corresponding
cmd_* function. -/
def runLeaf (cmd : LeafCmd) (fs : FS) : PyExit × Writes :=
  match cmd with
  | .rgbPerZone colors brightness =>
    if !fs.present KB_PER_ZONE then (.sysExitInt 2, [])
    else
      match mapExcept parse_hex_color colors with
      | .error e => (.otherError e, [])
      | .ok parsed =>
        if parsed.length = 0 then (.helpShown, [])
        else
          let parsed :=
            if parsed.length = 1 then parsed ++ parsed ++ parsed ++ parsed
            else parsed
          if parsed.length ≠ 4 then
            (.sysExitStr "Provide exactly 1 or 4 colors (RRGGBB).", [])
          else if !((0 : Int) ≤ brightness && brightness ≤ 100) then
            (.sysExitStr "Brightness must be 0-100", [])
          else
            let payload := String.intercalate "," (parsed ++ [toString brightness])
            writeOut fs KB_PER_ZONE (payload ++ "\n") ["OK: per-zone colors set"]
  | .rgbPerZoneGet =>
    if !fs.present KB_PER_ZONE then (.sysExitInt 2, [])
    else (.ret [readText fs KB_PER_ZONE], [])
  | .rgbEffect mode speed brightness direction color =>
    if !fs.present KB_FOUR_MODE then (.sysExitInt 2, [])
    else
      match modeIdOrErr mode with
      | .error e => (.sysExitStr e, [])
      | .ok mode_id =>
        if !((0 : Int) ≤ speed && speed ≤ 9) then
          (.sysExitStr "Speed must be 0-9", [])
        else if !((0 : Int) ≤ brightness && brightness ≤ 100) then
          (.sysExitStr "Brightness must be 0-100", [])
        else if !((1 : Int) ≤ direction && direction ≤ 2) then
          (.sysExitStr "Direction must be 1 or 2", [])
        else
          match (match color with
                 | some c => if c ≠ "" then (parse_hex_color c).map some
                             else .ok none
                 | none => .ok none) with
          | .error e => (.otherError e, [])
          | .ok hc? =>
            let rgb : Nat × Nat × Nat :=
              match hc? with
              | some hc =>
                let d := hc.data
                (hexByte (d.getD 0 '0') (d.getD 1 '0'),
                 hexByte (d.getD 2 '0') (d.getD 3 '0'),
                 hexByte (d.getD 4 '0') (d.getD 5 '0'))
              | none => (0, 0, 0)
            let payload := String.intercalate ","
              [toString mode_id, toString speed, toString brightness,
               toString direction, toString rgb.1, toString rgb.2.1,
               toString rgb.2.2]
            writeOut fs KB_FOUR_MODE (payload ++ "\n") ["OK: effect set"]
  | .rgbEffectGet =>
    if !fs.present KB_FOUR_MODE then (.sysExitInt 2, [])
    else (.ret [readText fs KB_FOUR_MODE], [])
  | .powerGet =>
    if !fs.present PLATFORM_PROFILE then (.sysExitInt 2, [])
    else (.ret [readText fs PLATFORM_PROFILE], [])
  | .powerList =>
    if !fs.present PLATFORM_PROFILE_CHOICES then (.sysExitInt 2, [])
    else (.ret [readText fs PLATFORM_PROFILE_CHOICES], [])
  | .powerSet mode =>
    if !fs.present PLATFORM_PROFILE then (.sysExitInt 2, [])
    else
      if fs.present PLATFORM_PROFILE_CHOICES
          && !(powerChoices fs).isEmpty
          && !(powerChoices fs).contains mode then
        (.sysExitStr ("Unsupported profile '" ++ mode ++ "'. Choices: "
          ++ String.intercalate ", " (sortedChoices fs)), [])
      else
        writeOut fs PLATFORM_PROFILE (mode ++ "\n") ["OK: power profile set"]
  | .logoGet =>
    if !fs.present LOGO_COLOR then (.sysExitInt 2, [])
    else (.ret [readText fs LOGO_COLOR], [])
  | .logoSet color brightness on_ off_ =>
    if on_ && off_ then
      (.sysExitStr "Choose either --on or --off, not both", [])
    else if !fs.present LOGO_COLOR then (.sysExitInt 2, [])
    else
      match parse_hex_color color with
      | .error e => (.otherError e, [])
      | .ok hc =>
        if !((0 : Int) ≤ brightness && brightness ≤ 100) then
          (.sysExitStr "Brightness must be 0-100", [])
        else
          let en : Nat := if off_ then 0 else 1
          writeOut fs LOGO_COLOR
            (hc ++ "," ++ toString brightness ++ "," ++ toString en ++ "\n")
            ["OK: back logo updated"]
  | .fanGet =>
    match fanPathModel fs with
    | none => (.sysExitInt 2, [])
    | some p =>
      if !fs.present p then (.sysExitInt 2, [])
      else (.ret [readText fs p], [])
  | .fanAuto =>
    match fanPathModel fs with
    | none => (.sysExitInt 2, [])
    | some p =>
      if !fs.present p then (.sysExitInt 2, [])
      else writeOut fs p "0,0\n" ["OK: fan control set to auto"]
  | .fanSet values cpu gpu =>
    match fanPathModel fs with
    | none => (.sysExitInt 2, [])
    | some p =>
      if !fs.present p then (.sysExitInt 2, [])
      else
        let finish : PyVal → PyVal → PyExit × Writes := fun cv gv =>
          match parse_percent_or_auto (pyStr cv) with
          | .error e => (.otherError e, [])
          | .ok cf =>
            match parse_percent_or_auto (pyStr gv) with
            | .error e => (.otherError e, [])
            | .ok gf =>
              writeOut fs p (toString cf ++ "," ++ toString gf ++ "\n")
                ["OK: fan set CPU=" ++ toString cf ++ " GPU=" ++ toString gf]
        let fromOpts : Option PyVal → Option PyVal → PyExit × Writes :=
          fun cpuV gpuV =>
          match cpuV, gpuV with
          | none, none =>
            (.sysExitStr "Specify fan percentages via values or --cpu/--gpu", [])
          | none, some g =>
            (match parse_percent_or_auto (pyStr g) with
             | .error e => (.otherError e, [])
             | .ok n => finish (.i n) g)
          | some c, none =>
            (match parse_percent_or_auto (pyStr c) with
             | .error e => (.otherError e, [])
             | .ok n => finish c (.i n))
          | some c, some g => finish c g
        match values with
        | [] => fromOpts (cpu.map .s) (gpu.map .s)
        | [v] =>
          (match parse_percent_or_auto v with
           | .error e => (.otherError e, [])
           | .ok n => finish (.i n) (.i n))
        | [v1, v2] =>
          (match parse_percent_or_auto v1 with
           | .error e => (.otherError e, [])
           | .ok n1 =>
             match parse_percent_or_auto v2 with
             | .error e => (.otherError e, [])
             | .ok n2 => finish (.i n1) (.i n2))
        | _ => (.sysExitStr "Provide one or two percentage values", [])
  | .batteryGet =>
    match batteryPathModel fs with
    | none => (.sysExitInt 2, [])
    | some p =>
      if !fs.present p then (.sysExitInt 2, [])
      else (.ret [readText fs p], [])
  | .batteryOn =>
    match batteryPathModel fs with
    | none => (.sysExitInt 2, [])
    | some p =>
      if !fs.present p then (.sysExitInt 2, [])
      else writeOut fs p "1\n" ["OK: battery limit ON (80%)"]
  | .batteryOff =>
    match batteryPathModel fs with
    | none => (.sysExitInt 2, [])
    | some p =>
      if !fs.present p then (.sysExitInt 2, [])
      else writeOut fs p "0\n" ["OK: battery limit OFF (100%)"]
  | .batterySet mode =>
    match batteryPathModel fs with
    | none => (.sysExitInt 2, [])
    | some p =>
      if !fs.present p then (.sysExitInt 2, [])
      else
        match parse_on_off mode with
        | .error e => (.sysExitStr e, [])
        | .ok v =>
          writeOut fs p (toString v ++ "\n")
            [if v = 1 then "OK: battery limit set to ON (80%)"
             else "OK: battery limit set to OFF (100%)"]

/-! ### Claim-level classification of a leaf invocation

These predicates restate, from the specification's point of view, when a
leaf has all its arguments, when its required attribute paths are present,
when its arguments validate, and which path it writes or reads. The exit
code theorem connects them to runLeaf. -/

/-- The invocation actually carries arguments (absent arguments make the
parser wrappers print help instead of running the leaf's work, a behaviour
the specification assigns to the excluded CLI-parsing collaborator). -/
def argsProvidedB : LeafCmd → Bool
  | .rgbPerZone colors _ => !colors.isEmpty
  | .logoSet _ _ on_ off_ => !(on_ && off_)
  | .fanSet values cpu gpu => !(values.isEmpty && cpu.isNone && gpu.isNone)
  | _ => true

/-- The required attribute paths of a leaf are present. -/
def requiredOkB : LeafCmd → FS → Bool
  | .rgbPerZone _ _, fs => fs.present KB_PER_ZONE
  | .rgbPerZoneGet, fs => fs.present KB_PER_ZONE
  | .rgbEffect _ _ _ _ _, fs => fs.present KB_FOUR_MODE
  | .rgbEffectGet, fs => fs.present KB_FOUR_MODE
  | .powerGet, fs => fs.present PLATFORM_PROFILE
  | .powerList, fs => fs.present PLATFORM_PROFILE_CHOICES
  | .powerSet _, fs => fs.present PLATFORM_PROFILE
  | .logoGet, fs => fs.present LOGO_COLOR
  | .logoSet _ _ _ _, fs => fs.present LOGO_COLOR
  | .fanGet, fs | .fanAuto, fs | .fanSet _ _ _, fs =>
    match fanPathModel fs with
    | some p => fs.present p
    | none => false
  | .batteryGet, fs | .batteryOn, fs | .batteryOff, fs | .batterySet _, fs =>
    match batteryPathModel fs with
    | some p => fs.present p
    | none => false

/-- The leaf's arguments pass its validation (for power set, validation
depends on the published choice list). -/
def validB : LeafCmd → FS → Bool
  | .rgbPerZone colors b, _ =>
    colors.all (fun c => exceptOk (parse_hex_color c))
      && (colors.length == 1 || colors.length == 4)
      && (decide ((0 : Int) ≤ b) && decide (b ≤ 100))
  | .rgbEffect m s b d c, _ =>
    exceptOk (modeIdOrErr m)
      && (decide ((0 : Int) ≤ s) && decide (s ≤ 9))
      && (decide ((0 : Int) ≤ b) && decide (b ≤ 100))
      && (decide ((1 : Int) ≤ d) && decide (d ≤ 2))
      && (match c with
          | some t => (t == "") || exceptOk (parse_hex_color t)
          | none => true)
  | .powerSet m, fs =>
    !(fs.present PLATFORM_PROFILE_CHOICES
      && !(powerChoices fs).isEmpty && !(powerChoices fs).contains m)
  | .logoSet c b _ _, _ =>
    exceptOk (parse_hex_color c)
      && (decide ((0 : Int) ≤ b) && decide (b ≤ 100))
  | .fanSet values cpu gpu, _ =>
    (match values with
     | [] =>
       (match cpu, gpu with
        | some c, some g =>
          exceptOk (parse_percent_or_auto c) && exceptOk (parse_percent_or_auto g)
        | some c, none => exceptOk (parse_percent_or_auto c)
        | none, some g => exceptOk (parse_percent_or_auto g)
        | none, none => false)
     | [v] => exceptOk (parse_percent_or_auto v)
     | [v1, v2] =>
       exceptOk (parse_percent_or_auto v1) && exceptOk (parse_percent_or_auto v2)
     | _ => false)
  | .batterySet m, _ => exceptOk (parse_on_off m)
  | _, _ => true

/-- The attribute path a leaf writes when its checks pass. -/
def writeTargetOf : LeafCmd → FS → Option String
  | .rgbPerZone _ _, _ => some KB_PER_ZONE
  | .rgbEffect _ _ _ _ _, _ => some KB_FOUR_MODE
  | .powerSet _, _ => some PLATFORM_PROFILE
  | .logoSet _ _ _ _, _ => some LOGO_COLOR
  | .fanAuto, fs | .fanSet _ _ _, fs => fanPathModel fs
  | .batteryOn, fs | .batteryOff, fs | .batterySet _, fs => batteryPathModel fs
  | _, _ => none

/-- The attribute path a pure read leaf prints. -/
def readTargetOf : LeafCmd → FS → Option String
  | .rgbPerZoneGet, _ => some KB_PER_ZONE
  | .rgbEffectGet, _ => some KB_FOUR_MODE
  | .powerGet, _ => some PLATFORM_PROFILE
  | .powerList, _ => some PLATFORM_PROFILE_CHOICES
  | .logoGet, _ => some LOGO_COLOR
  | .fanGet, fs => fanPathModel fs
  | .batteryGet, fs => batteryPathModel fs
  | _, _ => none

/-- A hexadecimal digit, named by its code point ranges. -/
def isHexDigitChar (c : Char) : Prop :=
  (48 ≤ c.toNat ∧ c.toNat ≤ 57) ∨ (97 ≤ c.toNat ∧ c.toNat ≤ 102)
    ∨ (65 ≤ c.toNat ∧ c.toNat ≤ 70)

instance (c : Char) : Decidable (isHexDigitChar c) := by
  unfold isHexDigitChar; infer_instance

/-- The normalization the claim describes: only an optional leading hash
sign is removed. -/
def hashStripped (s : String) : String :=
  if strStarts s "#" then s.drop 1 else s

/-- Exactly six hexadecimal digits. -/
def sixHexStr (t : String) : Prop :=
  t.length = 6 ∧ ∀ c ∈ t.data, isHexDigitChar c

instance (t : String) : Decidable (sixHexStr t) := by
  unfold sixHexStr; infer_instance

/-- A sysfs tree where every path is present and writable and every file is
empty; a convenient concrete instance for witnesses. -/
def fsDemo : FS := ⟨fun _ => true, fun _ => "", fun _ => true⟩

/-- A world exercising the claim's remaining branch: the unprivileged run
fails permission-related, sudo -n fails silently with exit 1 (no stderr, no
stdout), pkexec would succeed if invoked. -/
def w_c2 : World := ⟨true, true, ⟨3, "", "Permission denied"⟩, ⟨1, "", ""⟩, ⟨0, "OK", ""⟩⟩

/-- The claim's classification of one leaf invocation: exit 2 exactly when a
required attribute path is missing; exit 1 for invalid arguments; with valid
arguments, a write leaf exits 0 printing an OK line when its target is
writable and exits 3 performing no write when it is not, and a read leaf
exits 0 printing the raw attribute text. -/
def c9Concl (cmd : LeafCmd) (fs : FS) : Prop :=
  (requiredOkB cmd fs = false →
      mainExit (runLeaf cmd fs).1 = 2 ∧ (runLeaf cmd fs).2 = [])
  ∧ (requiredOkB cmd fs = true → validB cmd fs = false →
      mainExit (runLeaf cmd fs).1 = 1 ∧ (runLeaf cmd fs).2 = [])
  ∧ (requiredOkB cmd fs = true → validB cmd fs = true →
      (∀ t, writeTargetOf cmd fs = some t →
        (fs.writable t = true →
          mainExit (runLeaf cmd fs).1 = 0
          ∧ ∃ l, (runLeaf cmd fs).1 = .ret [l] ∧ strStarts l "OK: " = true)
        ∧ (fs.writable t = false →
          mainExit (runLeaf cmd fs).1 = 3 ∧ (runLeaf cmd fs).2 = []))
      ∧ (writeTargetOf cmd fs = none →
        mainExit (runLeaf cmd fs).1 = 0
        ∧ ∃ p, readTargetOf cmd fs = some p
            ∧ (runLeaf cmd fs).1 = .ret [readText fs p]))

/-! ### Helper lemmas -/

lemma strData_append (a b : String) : (a ++ b).data = a.data ++ b.data := rfl

lemma char_toNat_inj {a b : Char} (h : a.toNat = b.toNat) : a = b :=
  Char.ext (UInt32.ext h)

lemma char_eq_iff_toNat (c d : Char) : c = d ↔ c.toNat = d.toNat :=
  ⟨fun h => by rw [h], char_toNat_inj⟩

lemma hex_mem_iff (c : Char) :
    hexCharList.contains c = true ↔ isHexDigitChar c := by
  have hmem : hexCharList.contains c = true ↔ c ∈ hexCharList := by
    simp [List.contains, List.elem_iff]
  rw [hmem]
  have hl : hexCharList
      = ['0','1','2','3','4'] ++ ['5','6','7','8','9'] ++ ['a','b','c','d']
        ++ ['e','f','A','B'] ++ ['C','D','E','F'] := rfl
  rw [hl]
  simp only [List.mem_append, List.mem_cons, List.not_mem_nil, or_false]
  simp only [char_eq_iff_toNat]
  simp only [show ('0':Char).toNat = 48 from rfl, show ('1':Char).toNat = 49 from rfl,
    show ('2':Char).toNat = 50 from rfl, show ('3':Char).toNat = 51 from rfl,
    show ('4':Char).toNat = 52 from rfl, show ('5':Char).toNat = 53 from rfl,
    show ('6':Char).toNat = 54 from rfl, show ('7':Char).toNat = 55 from rfl,
    show ('8':Char).toNat = 56 from rfl, show ('9':Char).toNat = 57 from rfl,
    show ('a':Char).toNat = 97 from rfl, show ('b':Char).toNat = 98 from rfl,
    show ('c':Char).toNat = 99 from rfl, show ('d':Char).toNat = 100 from rfl,
    show ('e':Char).toNat = 101 from rfl, show ('f':Char).toNat = 102 from rfl,
    show ('A':Char).toNat = 65 from rfl, show ('B':Char).toNat = 66 from rfl,
    show ('C':Char).toNat = 67 from rfl, show ('D':Char).toNat = 68 from rfl,
    show ('E':Char).toNat = 69 from rfl, show ('F':Char).toNat = 70 from rfl]
  unfold isHexDigitChar
  omega

lemma listInfixB_append_right (nd b : List Char) (h : listInfixB nd b = true) :
    ∀ a : List Char, listInfixB nd (a ++ b) = true := by
  intro a
  induction a with
  | nil => simpa using h
  | cons c a' ih =>
    show listInfixB nd (c :: (a' ++ b)) = true
    unfold listInfixB
    rw [Bool.or_eq_true]
    exact Or.inr ih

lemma exceptOk_mapExcept (f : α → Except ε β) (l : List α) :
    exceptOk (mapExcept f l) = l.all (fun x => exceptOk (f x)) := by
  induction l with
  | nil => rfl
  | cons x xs ih =>
    rcases hf : f x with e | y
    · simp [mapExcept, hf, exceptOk, List.all_cons]
    · rw [List.all_cons, ← ih]
      rcases hm : mapExcept f xs with e' | ys <;>
        simp [mapExcept, hf, hm, exceptOk]

lemma splitUnd_ne_nil (l : List Char) : splitUnd l ≠ [] := by
  cases l with
  | nil => simp [splitUnd]
  | cons c rest =>
    unfold splitUnd
    rcases h : splitUnd rest with _ | ⟨g, gs⟩
    · simp
    · dsimp
      split <;> simp

lemma pyStrip_data_head {c : Char} (hc : pyIsWs c = false) (xs : List Char) :
    ∃ ys, (pyStrip ⟨c :: xs⟩).data = c :: ys := by
  unfold pyStrip
  dsimp
  rw [List.dropWhile_cons, hc]
  dsimp
  rw [show (c :: xs).reverse = xs.reverse ++ [c] by simp]
  rw [List.dropWhile_append]
  by_cases he : (xs.reverse.dropWhile pyIsWs).isEmpty
  · rw [if_pos he]
    rw [List.dropWhile_cons, hc]
    exact ⟨[], rfl⟩
  · rw [if_neg he]
    exact ⟨(xs.reverse.dropWhile pyIsWs).reverse, by simp⟩

/-- Python int() returns no value for text whose first stripped character is
not a digit or sign. -/
lemma pyInt_none_of_data_head (m : String) (c : Char) (xs : List Char)
    (hdata : m.data = c :: xs) (hws : pyIsWs c = false) (hd : c.isDigit = false)
    (hm : c ≠ '-') (hp : c ≠ '+') : pyInt m = none := by
  have hm' : m = ⟨c :: xs⟩ := by cases m; simp_all
  subst hm'
  obtain ⟨ys, hys⟩ := pyStrip_data_head hws xs
  unfold pyInt
  rw [hys]
  simp only [pyIntL]
  rw [if_neg hm, if_neg hp]
  have hnat : pyIntNat (c :: ys) = none := by
    unfold pyIntNat
    rw [if_neg (by simp)]
    dsimp
    by_cases hu : c = '_'
    · subst hu
      rcases h : splitUnd ys with _ | ⟨g, gs⟩
      · exact absurd h (splitUnd_ne_nil ys)
      · simp [splitUnd, h]
    · rcases h : splitUnd ys with _ | ⟨g, gs⟩
      · exact absurd h (splitUnd_ne_nil ys)
      · rw [show splitUnd (c :: ys) = (c :: g) :: gs by
          unfold splitUnd; rw [h]; simp [hu]]
        rw [if_pos]
        simp [List.any_cons, hd]
  rw [hnat]
  rfl

lemma ppoa_toString_le100 (n : Nat) (h : n ≤ 100) :
    parse_percent_or_auto (toString (Int.ofNat n)) = .ok (Int.ofNat n) := by
  have hall : ((List.range 101).all
      (fun k => decide (parse_percent_or_auto (toString (Int.ofNat k))
        = .ok (Int.ofNat k)))) = true := by decide
  have hmem : n ∈ List.range 101 := List.mem_range.mpr (by omega)
  exact of_decide_eq_true (List.all_eq_true.mp hall n hmem)

lemma ppoa_ok_bounds {v : String} {i : Int}
    (h : parse_percent_or_auto v = .ok i) : i = 0 ∨ (1 ≤ i ∧ i ≤ 100) := by
  simp only [parse_percent_or_auto] at h
  split at h
  · cases h; exact Or.inl rfl
  · unfold parse_percent at h
    split at h
    · cases h
    · split at h
      · cases h
        exact Or.inl rfl
      · split at h
        · cases h
        · cases h
          rename_i hrange
          rw [Bool.not_eq_true', Bool.not_eq_false] at hrange
          rw [Bool.and_eq_true, decide_eq_true_eq, decide_eq_true_eq] at hrange
          exact Or.inr hrange

/-- The reparse parse_percent_or_auto(str(i)) of an already accepted fan
value yields the value back. -/
lemma ppoa_roundtrip {v : String} {i : Int}
    (h : parse_percent_or_auto v = .ok i) :
    parse_percent_or_auto (toString i) = .ok i := by
  have hb := ppoa_ok_bounds h
  have hnn : 0 ≤ i := by omega
  have hle : i.toNat ≤ 100 := by omega
  have h2 := ppoa_toString_le100 i.toNat hle
  have h3 : Int.ofNat i.toNat = i := Int.toNat_of_nonneg hnn
  rwa [h3] at h2

/-! ### Claim C7: hex color parsing -/

lemma parse_hex_color_eq (s : String) :
    parse_hex_color s =
      (if (hashStripped (pyStrip s)).length ≠ 6
          || (hashStripped (pyStrip s)).data.any
               (fun c => !(hexCharList.contains c)) then
        .error ("Invalid color '" ++ hashStripped (pyStrip s)
          ++ "'. Use RRGGBB or #RRGGBB.")
      else .ok (pyLower (hashStripped (pyStrip s)))) := rfl

lemma hex_guard_false_iff (t : String) :
    ((decide (t.length ≠ 6))
        || t.data.any (fun c => !(hexCharList.contains c))) = false
      ↔ sixHexStr t := by
  rw [Bool.or_eq_false_iff]
  unfold sixHexStr
  constructor
  · rintro ⟨h1, h2⟩
    refine ⟨by simpa using h1, fun c hc => ?_⟩
    rw [List.any_eq_false] at h2
    have := h2 c hc
    rw [Bool.not_eq_true'] at this
    rw [Bool.not_eq_false] at this
    exact (hex_mem_iff c).mp this
  · rintro ⟨h1, h2⟩
    refine ⟨by simpa using h1, ?_⟩
    rw [List.any_eq_false]
    intro c hc
    rw [Bool.not_eq_true', Bool.not_eq_false]
    exact (hex_mem_iff c).mpr (h2 c hc)

/-- Claim C7, counterexample: on the input " 00aaFF" the remainder after
removing an optional leading hash sign is not six hexadecimal digits (it is
seven characters), so the claim as stated demands rejection, yet the parser
accepts it (the code strips surrounding whitespace first). -/
theorem c7_counterexample :
    parse_hex_color " 00aaFF" = .ok "00aaff"
      ∧ ¬ sixHexStr (hashStripped " 00aaFF") := by
  constructor
  · rfl
  · decide

/-- Claim C7, amended: color parsing strips surrounding whitespace, then an
optional leading hash sign; it rejects the input with an error unless the
remainder is exactly six hexadecimal digits, and otherwise returns the six
digits lowercased. -/
theorem c7_amended (s : String) :
    (sixHexStr (hashStripped (pyStrip s)) →
      parse_hex_color s = .ok (pyLower (hashStripped (pyStrip s))))
    ∧ (¬ sixHexStr (hashStripped (pyStrip s)) →
      parse_hex_color s = .error ("Invalid color '" ++ hashStripped (pyStrip s)
        ++ "'. Use RRGGBB or #RRGGBB.")) := by
  rw [parse_hex_color_eq s]
  constructor
  · intro h6
    rw [if_neg]
    rw [Bool.not_eq_true]
    exact (hex_guard_false_iff _).mpr h6
  · intro h6
    have hb : ((decide ((hashStripped (pyStrip s)).length ≠ 6))
        || (hashStripped (pyStrip s)).data.any
             (fun c => !(hexCharList.contains c))) = true := by
      cases hb2 : ((decide ((hashStripped (pyStrip s)).length ≠ 6))
          || (hashStripped (pyStrip s)).data.any
               (fun c => !(hexCharList.contains c))) with
      | false => exact absurd ((hex_guard_false_iff _).mp hb2) h6
      | true => rfl
    rw [if_pos hb]

/-- Claim C7, witness: the two validation examples of the specification, via
the amended theorem. -/
theorem c7_witness :
    (sixHexStr (hashStripped (pyStrip "#00aaFF"))
      ∧ parse_hex_color "#00aaFF" = .ok (pyLower (hashStripped (pyStrip "#00aaFF"))))
    ∧ (¬ sixHexStr (hashStripped (pyStrip "GGGGGG"))
      ∧ parse_hex_color "GGGGGG"
          = .error ("Invalid color '" ++ hashStripped (pyStrip "GGGGGG")
            ++ "'. Use RRGGBB or #RRGGBB.")) :=
  ⟨⟨by decide, (c7_amended "#00aaFF").1 (by decide)⟩,
   ⟨by decide, (c7_amended "GGGGGG").2 (by decide)⟩⟩

/-! ### Claim C8: fan value normalization -/

/-- Claim C8: the string auto and the integer 0 both normalize to 0,
integers 1-100 are accepted unchanged, every other integer is rejected, and
in particular 101 is rejected. -/
theorem c8_fan_normalization :
    parse_percent_or_auto "auto" = .ok 0
    ∧ parse_percent_or_auto "101"
        = .error "Percentage must be between 1 and 100 (or 0 for auto)"
    ∧ ∀ (s : String) (i : Int), pyInt (pyLower (pyStrip s)) = some i →
        parse_percent_or_auto s =
          (if i = 0 ∨ (1 ≤ i ∧ i ≤ 100) then .ok i
           else .error "Percentage must be between 1 and 100 (or 0 for auto)") := by
  refine ⟨rfl, rfl, ?_⟩
  intro s i h
  have hna : pyLower (pyStrip s) ≠ "auto" := by
    intro he
    rw [he, show pyInt "auto" = none from by decide] at h
    exact Option.noConfusion h
  have hnb : pyLower (pyStrip s) ≠ "a" := by
    intro he
    rw [he, show pyInt "a" = none from by decide] at h
    exact Option.noConfusion h
  simp only [parse_percent_or_auto]
  rw [if_neg (by simp [hna, hnb])]
  unfold parse_percent
  rw [h]
  dsimp only
  by_cases h0 : i = 0
  · subst h0
    rw [if_pos rfl, if_pos (Or.inl rfl)]
  · rw [if_neg h0]
    by_cases hr : 1 ≤ i ∧ i ≤ 100
    · rw [if_pos (Or.inr hr)]
      rw [if_neg]
      simp only [Bool.not_eq_true', Bool.not_eq_false]
      rw [Bool.and_eq_true, decide_eq_true_eq, decide_eq_true_eq]
      exact hr
    · have hcond : (!(decide (1 ≤ i) && decide (i ≤ 100))) = true := by
        rw [Bool.not_eq_true']
        rcases (not_and_or.mp hr) with h1 | h1
        · have hd : decide (1 ≤ i) = false := by simpa using h1
          rw [hd, Bool.false_and]
        · have hd : decide (i ≤ 100) = false := by simpa using h1
          rw [hd, Bool.and_false]
      rw [if_pos hcond, if_neg (by tauto)]

/-- Claim C8, witness: the value 42 parses as the integer 42 and is
accepted unchanged. -/
theorem c8_witness :
    pyInt (pyLower (pyStrip "42")) = some 42
    ∧ parse_percent_or_auto "42" =
        (if (42 : Int) = 0 ∨ ((1 : Int) ≤ 42 ∧ (42 : Int) ≤ 100) then .ok 42
         else .error "Percentage must be between 1 and 100 (or 0 for auto)") :=
  ⟨by decide, c8_fan_normalization.2.2 "42" 42 (by decide)⟩

/-! ### Claim C6: effect mode resolution -/

lemma mode_lookup_bounds {k : String} {v : Int}
    (h : MODE_NAME_TO_ID.lookup k = some v) : 0 ≤ v ∧ v ≤ 7 := by
  simp only [ MODE_NAME_TO_ID, List.lookup] at h
  repeat' split at h
  all_goals (cases h)
  all_goals omega

/-- Claim C6, counterexample: the input "8" is neither a name of the mode
table nor a literal integer 0-7, so the claim as stated demands an unknown
mode error listing the valid names, yet the code resolves "8" as an integer
and reports a bare range error that mentions no mode name. -/
theorem c6_counterexample :
    MODE_NAME_TO_ID.lookup (pyLower "8") = none
    ∧ pyInt "8" = some 8
    ∧ modeIdOrErr "8" = .error "Mode must be 0-7"
    ∧ strContains (pyLower "Mode must be 0-7") "unknown mode" = false
    ∧ strContains "Mode must be 0-7" "static" = false := by
  refine ⟨rfl, rfl, rfl, ?_, ?_⟩ <;> decide

/-- Claim C6, amended: a case-insensitive table name resolves to its id
(NEON to 2); a numeric input resolves through int(): inside 0-7 it is
accepted as-is, outside it yields the error "Mode must be 0-7"; a
non-numeric non-name input yields an unknown-mode error listing every valid
mode name. -/
theorem c6_amended :
    (∀ (m : String) (id : Int), MODE_NAME_TO_ID.lookup (pyLower m) = some id →
      modeIdOrErr m = .ok id)
    ∧ modeIdOrErr "NEON" = .ok 2
    ∧ (∀ (m : String) (n : Int), MODE_NAME_TO_ID.lookup (pyLower m) = none →
        pyInt m = some n →
        modeIdOrErr m =
          (if 0 ≤ n ∧ n ≤ 7 then .ok n else .error "Mode must be 0-7"))
    ∧ (∀ m : String, MODE_NAME_TO_ID.lookup (pyLower m) = none →
        pyInt m = none →
        modeIdOrErr m = .error (unknownModeMsg m)
        ∧ ∀ e ∈ MODE_NAME_TO_ID, strContains (unknownModeMsg m) e.1 = true) := by
  refine ⟨?_, rfl, ?_, ?_⟩
  · intro m id h
    have hb := mode_lookup_bounds h
    unfold modeIdOrErr resolveModeId
    rw [h]
    dsimp only
    rw [if_neg]
    rw [Bool.not_eq_true, Bool.not_eq_false', Bool.and_eq_true,
      decide_eq_true_eq, decide_eq_true_eq]
    exact hb
  · intro m n hlook hint
    unfold modeIdOrErr resolveModeId
    rw [hlook, hint]
    dsimp only
    by_cases hr : 0 ≤ n ∧ n ≤ 7
    · rw [if_pos hr, if_neg]
      rw [Bool.not_eq_true, Bool.not_eq_false', Bool.and_eq_true,
        decide_eq_true_eq, decide_eq_true_eq]
      exact hr
    · have hcond : (!(decide ((0 : Int) ≤ n) && decide (n ≤ 7))) = true := by
        rw [Bool.not_eq_true']
        rcases (not_and_or.mp hr) with h1 | h1
        · have hd : decide ((0 : Int) ≤ n) = false := by simpa using h1
          rw [hd, Bool.false_and]
        · have hd : decide (n ≤ 7) = false := by simpa using h1
          rw [hd, Bool.and_false]
      rw [if_pos hcond, if_neg hr]
  · intro m hlook hint
    constructor
    · unfold modeIdOrErr resolveModeId
      rw [hlook, hint]
    · intro e he
      have hdata : (unknownModeMsg m).data
          = ("Unknown mode '" ++ m).data
            ++ ("'. Use one of: static, breathing, neon, wave, shifting, zoom, meteor, twinkling or 0-7." : String).data := rfl
      unfold strContains
      rw [hdata]
      apply listInfixB_append_right
      fin_cases he <;> decide

/-- Claim C6, witness: the mode name "NEON" resolves through the table to
id 2, and the numeric string "5" is accepted as-is. -/
theorem c6_witness :
    (MODE_NAME_TO_ID.lookup (pyLower "NEON") = some 2
      ∧ modeIdOrErr "NEON" = .ok 2)
    ∧ (MODE_NAME_TO_ID.lookup (pyLower "5") = none
      ∧ pyInt "5" = some 5
      ∧ modeIdOrErr "5"
          = (if (0 : Int) ≤ 5 ∧ (5 : Int) ≤ 7 then .ok 5
             else .error "Mode must be 0-7")) :=
  ⟨⟨by decide, c6_amended.1 "NEON" 2 (by decide)⟩,
   ⟨by decide, by decide, c6_amended.2.2.1 "5" 5 (by decide) (by decide)⟩⟩

/-! ### Claim C5: per-zone color list handling -/

lemma mapExcept_id_of_ok (f : α → Except ε α) (l : List α)
    (h : ∀ x ∈ l, f x = .ok x) : mapExcept f l = .ok l := by
  induction l with
  | nil => rfl
  | cons x xs ih =>
    unfold mapExcept
    rw [h x (List.mem_cons_self x xs), ih (fun y hy => h y (List.mem_cons_of_mem x hy))]

/-- Claim C5, counterexample: an empty color list is not treated as an
error; the leaf shows the subcommand help, performs no write and the
process exits 0. -/
theorem c5_counterexample :
    runLeaf (.rgbPerZone [] 50) fsDemo = (.helpShown, [])
    ∧ mainExit (runLeaf (.rgbPerZone [] 50) fsDemo).1 = 0
    ∧ (runLeaf (.rgbPerZone [] 50) fsDemo).2 = [] := by
  refine ⟨?_, ?_, ?_⟩ <;> rfl

/-- Claim C5, amended: for every list of valid colors given to the per-zone
leaf with an in-range brightness, a list of exactly 1 color is replicated
across all 4 zones, a list of exactly 4 colors is used as-is (the payload
being the four colors followed by the brightness, comma-separated), an
empty list shows help and writes nothing, and any other count is an
error. -/
theorem c5_amended (cs : List String) (b : Int) (fs : FS)
    (hp : fs.present KB_PER_ZONE = true) (hw : fs.writable KB_PER_ZONE = true)
    (hcs : ∀ c ∈ cs, parse_hex_color c = .ok c)
    (hb0 : 0 ≤ b) (hb1 : b ≤ 100) :
    (cs.length = 1 →
      runLeaf (.rgbPerZone cs b) fs
        = (.ret ["OK: per-zone colors set"],
           [(KB_PER_ZONE,
             String.intercalate "," (cs ++ cs ++ cs ++ cs ++ [toString b]) ++ "\n")]))
    ∧ (cs.length = 4 →
      runLeaf (.rgbPerZone cs b) fs
        = (.ret ["OK: per-zone colors set"],
           [(KB_PER_ZONE, String.intercalate "," (cs ++ [toString b]) ++ "\n")]))
    ∧ (cs = [] → runLeaf (.rgbPerZone cs b) fs = (.helpShown, []))
    ∧ (cs ≠ [] → cs.length ≠ 1 → cs.length ≠ 4 →
      runLeaf (.rgbPerZone cs b) fs
        = (.sysExitStr "Provide exactly 1 or 4 colors (RRGGBB).", [])) := by
  have hbb : (!(decide ((0 : Int) ≤ b) && decide (b ≤ 100))) = false := by
    rw [Bool.not_eq_false', Bool.and_eq_true, decide_eq_true_eq, decide_eq_true_eq]
    exact ⟨hb0, hb1⟩
  have hmap := mapExcept_id_of_ok parse_hex_color cs hcs
  refine ⟨?_, ?_, ?_, ?_⟩
  · intro h1
    simp [runLeaf, hp, hw, hmap, h1, hb0, hb1, writeOut, List.append_assoc]
  · intro h4
    simp [runLeaf, hp, hw, hmap, h4, hb0, hb1, writeOut]
  · intro he
    subst he
    simp [runLeaf, hp, hmap]
  · intro hne h1 h4
    have h0 : cs.length ≠ 0 := by
      intro hz; exact hne (List.length_eq_zero.mp hz)
    simp [runLeaf, hp, hmap, h0, h1, h4]

/-- Claim C5, witness: a single color ff0000 with brightness 50 is
broadcast to all four zones and encodes to ff0000,ff0000,ff0000,ff0000,50
followed by the trailing newline the writer appends. -/
theorem c5_witness :
    (fsDemo.present KB_PER_ZONE = true ∧ fsDemo.writable KB_PER_ZONE = true
      ∧ (∀ c ∈ ["ff0000"], parse_hex_color c = .ok c)
      ∧ (0 : Int) ≤ 50 ∧ (50 : Int) ≤ 100 ∧ ["ff0000"].length = 1)
    ∧ runLeaf (.rgbPerZone ["ff0000"] 50) fsDemo
        = (.ret ["OK: per-zone colors set"],
           [(KB_PER_ZONE,
             String.intercalate ","
               (["ff0000"] ++ ["ff0000"] ++ ["ff0000"] ++ ["ff0000"]
                 ++ [toString (50 : Int)]) ++ "\n")]) :=
  ⟨⟨rfl, rfl, by decide, by decide, by decide, rfl⟩,
   (c5_amended ["ff0000"] 50 fsDemo rfl rfl (by decide) (by decide) (by decide)).1 rfl⟩

/-! ### Claim C1: permission-failure classification of the escalator -/

/-- Claim C1: a failed unprivileged run is classified permission-related
exactly when its exit status is 3 or its stderr case-insensitively contains
one of the five permission phrases; a failure that is not permission-related
runs neither sudo nor pkexec and surfaces the unprivileged failure's own
message. -/
theorem c1_perm_classification (w : World)
    (hfail : (_run_nekroctl w).code ≠ 0) :
    (permDeniedB (_run_nekroctl w) = true ↔ permRelatedSpec (_run_nekroctl w))
    ∧ (¬ permRelatedSpec (_run_nekroctl w) →
        run_privileged w
          = ⟨false, failMsg (_run_nekroctl w), false, false⟩) := by
  have hiff : permDeniedB (_run_nekroctl w) = true
      ↔ permRelatedSpec (_run_nekroctl w) := by
    unfold permDeniedB permRelatedSpec containsCI
    rw [show pyLower "permission denied" = "permission denied" from rfl,
      show pyLower "operation not permitted" = "operation not permitted" from rfl,
      show pyLower "not authorized" = "not authorized" from rfl,
      show pyLower "authentication is required" = "authentication is required" from rfl,
      show pyLower "must be root" = "must be root" from rfl]
    simp only [Bool.or_eq_true, decide_eq_true_eq]
    tauto
  refine ⟨hiff, ?_⟩
  intro hnot
  have hb : permDeniedB (_run_nekroctl w) = false := by
    cases hb2 : permDeniedB (_run_nekroctl w)
    · rfl
    · exact absurd (hiff.mp hb2) hnot
  unfold run_privileged
  rw [if_neg hfail, hb]
  rfl

/-- Claim C1, witness: a failed run whose stderr reports a missing file is
not permission-related and short-circuits with its own message. -/
theorem c1_witness :
    ((_run_nekroctl ⟨true, true, ⟨1, "", "File not found: x"⟩,
        ⟨0, "", ""⟩, ⟨0, "", ""⟩⟩).code ≠ 0
      ∧ ¬ permRelatedSpec (_run_nekroctl ⟨true, true, ⟨1, "", "File not found: x"⟩,
            ⟨0, "", ""⟩, ⟨0, "", ""⟩⟩))
    ∧ run_privileged ⟨true, true, ⟨1, "", "File not found: x"⟩,
          ⟨0, "", ""⟩, ⟨0, "", ""⟩⟩
        = ⟨false, failMsg (_run_nekroctl ⟨true, true, ⟨1, "", "File not found: x"⟩,
            ⟨0, "", ""⟩, ⟨0, "", ""⟩⟩), false, false⟩ :=
  ⟨⟨by decide, by decide⟩,
   (c1_perm_classification ⟨true, true, ⟨1, "", "File not found: x"⟩,
      ⟨0, "", ""⟩, ⟨0, "", ""⟩⟩ (by decide)).2 (by decide)⟩

/-! ### Claim C2: escalation ordering and interactive-auth classification -/

/-- Claim C2, counterexample: in w_c2 the sudo failure is not classified
requires-interactive-auth, so per the claim the outcome must carry the
non-interactive attempt's message; the code instead falls back to the
original unprivileged stderr because sudo produced no output at all. -/
theorem c2_counterexample :
    (_run_nekroctl w_c2).code ≠ 0
    ∧ permRelatedSpec (_run_nekroctl w_c2)
    ∧ (_run_with_sudo w_c2).code ≠ 0
    ∧ ¬ requiresInteractiveSpec (_run_with_sudo w_c2)
    ∧ run_privileged w_c2 = ⟨false, "Permission denied", true, false⟩
    ∧ "Permission denied" ≠ failMsg (_run_with_sudo w_c2)
    ∧ "Permission denied" ≠ (_run_with_sudo w_c2).err
    ∧ "Permission denied" ≠ (_run_with_sudo w_c2).out := by
  refine ⟨by decide, by decide, by decide, by decide, by decide, by decide,
    by decide, by decide⟩

/-- Claim C2, amended: after a permission-related unprivileged failure the
non-interactive sudo path always runs, the interactive pkexec path runs
exactly when the sudo attempt failed and is classified
requires-interactive-auth (exit status 127, or the stated stderr phrases
with "password" conjoined to "authentication" or "is required"), and
otherwise the outcome is a failure whose message is the sudo attempt's
stderr, else its stdout, else the unprivileged stderr, else its stdout,
else a generic line naming the sudo exit code. -/
theorem c2_amended (w : World)
    (hfail : (_run_nekroctl w).code ≠ 0)
    (hperm : permDeniedB (_run_nekroctl w) = true) :
    (run_privileged w).ranSudo = true
    ∧ (sudoRequiresPasswordB (_run_with_sudo w) = true
        ↔ requiresInteractiveSpec (_run_with_sudo w))
    ∧ ((run_privileged w).ranPkexec = true
        ↔ ((_run_with_sudo w).code ≠ 0
            ∧ requiresInteractiveSpec (_run_with_sudo w)))
    ∧ ((_run_with_sudo w).code ≠ 0 →
        ¬ requiresInteractiveSpec (_run_with_sudo w) →
        run_privileged w
          = ⟨false,
             orS (_run_with_sudo w).err (orS (_run_with_sudo w).out
               (orS (_run_nekroctl w).err (orS (_run_nekroctl w).out
                 ("Failed with code " ++ toString (_run_with_sudo w).code)))),
             true, false⟩) := by
  have hiff : sudoRequiresPasswordB (_run_with_sudo w) = true
      ↔ requiresInteractiveSpec (_run_with_sudo w) := by
    unfold sudoRequiresPasswordB requiresInteractiveSpec containsCI
    rw [show pyLower "a password is required" = "a password is required" from rfl,
      show pyLower "password" = "password" from rfl,
      show pyLower "authentication" = "authentication" from rfl,
      show pyLower "is required" = "is required" from rfl,
      show pyLower "no tty present" = "no tty present" from rfl,
      show pyLower "unable to authenticate" = "unable to authenticate" from rfl,
      show pyLower "sorry, you must have a tty to run sudo"
        = "sorry, you must have a tty to run sudo" from rfl]
    simp only [Bool.or_eq_true, Bool.and_eq_true, decide_eq_true_eq]
    tauto
  unfold run_privileged
  rw [if_neg hfail, hperm]
  dsimp only [Bool.not_true, Bool.false_eq_true, if_false]
  by_cases hs0 : (_run_with_sudo w).code = 0
  · rw [if_pos hs0]
    refine ⟨rfl, hiff, ?_, ?_⟩
    · simp [hs0]
    · intro hne; exact absurd hs0 hne
  · rw [if_neg hs0]
    by_cases hreq : sudoRequiresPasswordB (_run_with_sudo w) = true
    · rw [if_pos hreq]
      by_cases hp0 : (_run_with_pkexec w).code = 0
      · rw [if_pos hp0]
        refine ⟨rfl, hiff, by simp [hs0, hiff.mp hreq], ?_⟩
        intro _ hni; exact absurd (hiff.mp hreq) hni
      · rw [if_neg hp0]
        refine ⟨rfl, hiff, by simp [hs0, hiff.mp hreq], ?_⟩
        intro _ hni; exact absurd (hiff.mp hreq) hni
    · rw [if_neg hreq]
      have hni : ¬ requiresInteractiveSpec (_run_with_sudo w) := fun hx =>
        hreq (hiff.mpr hx)
      refine ⟨rfl, hiff, by simp [hni], fun _ _ => rfl⟩

/-- Claim C2, witness: a permission-related failure whose sudo attempt
reports a required password escalates to pkexec after sudo, and the
classifier agrees with the specification's wording. -/
theorem c2_witness :
    ((_run_nekroctl ⟨true, true, ⟨3, "", "Permission denied"⟩,
        ⟨1, "", "sudo: a password is required"⟩, ⟨0, "done", ""⟩⟩).code ≠ 0
      ∧ permDeniedB (_run_nekroctl ⟨true, true, ⟨3, "", "Permission denied"⟩,
          ⟨1, "", "sudo: a password is required"⟩, ⟨0, "done", ""⟩⟩) = true)
    ∧ (run_privileged ⟨true, true, ⟨3, "", "Permission denied"⟩,
        ⟨1, "", "sudo: a password is required"⟩, ⟨0, "done", ""⟩⟩).ranSudo = true
    ∧ ((run_privileged ⟨true, true, ⟨3, "", "Permission denied"⟩,
        ⟨1, "", "sudo: a password is required"⟩, ⟨0, "done", ""⟩⟩).ranPkexec = true
      ↔ ((_run_with_sudo ⟨true, true, ⟨3, "", "Permission denied"⟩,
            ⟨1, "", "sudo: a password is required"⟩, ⟨0, "done", ""⟩⟩).code ≠ 0
          ∧ requiresInteractiveSpec (_run_with_sudo ⟨true, true,
              ⟨3, "", "Permission denied"⟩,
              ⟨1, "", "sudo: a password is required"⟩, ⟨0, "done", ""⟩⟩))) :=
  ⟨⟨by decide, by decide⟩,
   (c2_amended ⟨true, true, ⟨3, "", "Permission denied"⟩,
      ⟨1, "", "sudo: a password is required"⟩, ⟨0, "done", ""⟩⟩
      (by decide) (by decide)).1,
   (c2_amended ⟨true, true, ⟨3, "", "Permission denied"⟩,
      ⟨1, "", "sudo: a password is required"⟩, ⟨0, "done", ""⟩⟩
      (by decide) (by decide)).2.2.1⟩

/-! ### Claims C3 and C4: the change coalescer -/

lemma ticks_noop_lt (ok : String → Bool) (ts : List Nat) :
    ∀ s : CoState, (∀ τ ∈ ts, τ < s.lastChange + PER_ZONE_DELAY_US) →
    coRun ok s (ts.map CoEv.tick) = s := by
  induction ts with
  | nil => intro s _; rfl
  | cons τ0 rest ih =>
    intro s h
    have h0 : ¬ (s.lastChange + PER_ZONE_DELAY_US ≤ τ0) := by
      have := h τ0 (by simp); omega
    have hstep : coStep ok s (.tick τ0) = s := by
      simp only [coStep]
      by_cases ht : s.timerOn = true
      · rw [if_pos ht, if_neg h0]
      · rw [if_neg ht]
    show coRun ok (coStep ok s (.tick τ0)) (rest.map .tick) = s
    rw [hstep]
    exact ih s (fun τ hτ => h τ (by simp [hτ]))

lemma ticks_noop_off (ok : String → Bool) (ts : List Nat) :
    ∀ s : CoState, s.timerOn = false →
    coRun ok s (ts.map CoEv.tick) = s := by
  induction ts with
  | nil => intro s _; rfl
  | cons τ0 rest ih =>
    intro s hoff
    have hstep : coStep ok s (.tick τ0) = s := by
      simp only [coStep]
      rw [if_neg (by rw [hoff]; exact Bool.false_ne_true)]
    show coRun ok (coStep ok s (.tick τ0)) (rest.map .tick) = s
    rw [hstep]
    exact ih s hoff

lemma post_phase (ok : String → Bool) (ts : List Nat) :
    ∀ s : CoState, s.timerOn = true →
    s.lastApplied ≠ some s.payload →
    (∃ τ ∈ ts, s.lastChange + PER_ZONE_DELAY_US ≤ τ) →
    (coRun ok s (ts.map CoEv.tick)).dispatches = s.dispatches ++ [s.payload] := by
  induction ts with
  | nil =>
    intro s _ _ hex
    simp at hex
  | cons τ0 rest ih =>
    intro s hon hne hex
    show (coRun ok (coStep ok s (.tick τ0)) (rest.map .tick)).dispatches = _
    by_cases hf : s.lastChange + PER_ZONE_DELAY_US ≤ τ0
    · have hstep : coStep ok s (.tick τ0)
          = { applyPerZoneNow ok s with timerOn := false } := by
        simp only [coStep]
        rw [if_pos hon, if_pos hf]
      rw [hstep]
      rw [ticks_noop_off ok rest _ rfl]
      unfold applyPerZoneNow
      rw [if_neg hne]
      by_cases hok : ok s.payload = true
      · rw [if_pos hok]
      · rw [if_neg hok]
    · have hstep : coStep ok s (.tick τ0) = s := by
        simp only [coStep]
        rw [if_pos hon, if_neg hf]
      rw [hstep]
      apply ih s hon hne
      rcases hex with ⟨τ, hmem, hτ⟩
      rcases List.mem_cons.mp hmem with rfl | hmem'
      · exact absurd hτ hf
      · exact ⟨τ, hmem', hτ⟩

lemma burst_phase (ok : String → Bool) :
    ∀ (segs : List (Nat × String × List Nat)) (s : CoState)
      (tl : Nat) (pl : String), burstWF segs = true →
    segs.getLast? = some (tl, pl, []) →
    coRun ok s (burstEvents segs)
      = { s with lastChange := tl, payload := pl, timerOn := true } := by
  intro segs
  induction segs with
  | nil =>
    intro s tl pl _ hlast
    simp at hlast
  | cons seg rest ih =>
    obtain ⟨t, p, ticks⟩ := seg
    cases rest with
    | nil =>
      intro s tl pl _ hlast
      have h1 : t = tl ∧ p = pl ∧ ticks = [] := by
        simpa using hlast
      obtain ⟨rfl, rfl, rfl⟩ := h1
      rfl
    | cons seg2 rest2 =>
      obtain ⟨t2, p2, ticks2⟩ := seg2
      intro s tl pl hwf hlast
      have hwf' : t2 < t + PER_ZONE_DELAY_US ∧ (∀ τ ∈ ticks, τ ≤ t2)
          ∧ burstWF ((t2, p2, ticks2) :: rest2) = true := by
        have := hwf
        unfold burstWF at this
        rw [Bool.and_eq_true, Bool.and_eq_true] at this
        refine ⟨by simpa using this.1.1, ?_, this.2⟩
        intro τ hτ
        have := List.all_eq_true.mp this.1.2 τ hτ
        simpa using this
      have hlast' : ((t2, p2, ticks2) :: rest2).getLast? = some (tl, pl, []) := by
        rw [← List.getLast?_cons_cons]
        exact hlast
      show coRun ok s (CoEv.touch t p ::
        (ticks.map .tick ++ burstEvents ((t2, p2, ticks2) :: rest2))) = _
      have hcons : coRun ok s (CoEv.touch t p ::
          (ticks.map .tick ++ burstEvents ((t2, p2, ticks2) :: rest2)))
          = coRun ok (coStep ok s (.touch t p))
              (ticks.map .tick ++ burstEvents ((t2, p2, ticks2) :: rest2)) := rfl
      rw [hcons]
      have happ : coRun ok (coStep ok s (.touch t p))
          (ticks.map .tick ++ burstEvents ((t2, p2, ticks2) :: rest2))
          = coRun ok (coRun ok (coStep ok s (.touch t p)) (ticks.map .tick))
              (burstEvents ((t2, p2, ticks2) :: rest2)) := by
        unfold coRun
        rw [List.foldl_append]
      rw [happ]
      have hnoop : coRun ok (coStep ok s (.touch t p)) (ticks.map .tick)
          = coStep ok s (.touch t p) := by
        apply ticks_noop_lt
        intro τ hτ
        have h1 := hwf'.2.1 τ hτ
        have h2 := hwf'.1
        show τ < (coStep ok s (.touch t p)).lastChange + PER_ZONE_DELAY_US
        have : (coStep ok s (.touch t p)).lastChange = t := rfl
        omega
      rw [hnoop]
      rw [ih (coStep ok s (.touch t p)) tl pl hwf'.2.2 hlast']
      rfl


/-- Claim C3: for one setting key and a burst of N >= 1 intents whose gaps
are each shorter than the settle period, with the 100 ms polls interleaved
and continuing after the burst until one falls at least the settle period
after the last intent, the coalescer dispatches exactly one write, carrying
the last intent's payload; and every new intent resets the elapsed-time
reference of the pending timer (trailing-edge debounce). -/
theorem c3_debounce (ok : String → Bool) (segs : List (Nat × String × List Nat))
    (tl : Nat) (pl : String) (postTicks : List Nat) (s0 : CoState)
    (hwf : burstWF segs = true)
    (hlast : segs.getLast? = some (tl, pl, []))
    (hfire : ∃ τ ∈ postTicks, tl + PER_ZONE_DELAY_US ≤ τ)
    (hded : s0.lastApplied ≠ some pl) :
    (coRun ok s0 (burstEvents segs ++ postTicks.map CoEv.tick)).dispatches
      = s0.dispatches ++ [pl]
    ∧ ∀ (s : CoState) (t : Nat) (p : String),
        coStep ok s (.touch t p)
          = { s with lastChange := t, payload := p, timerOn := true } := by
  constructor
  · have hsplit : coRun ok s0 (burstEvents segs ++ postTicks.map CoEv.tick)
        = coRun ok (coRun ok s0 (burstEvents segs)) (postTicks.map CoEv.tick) := by
      unfold coRun
      rw [List.foldl_append]
    rw [hsplit, burst_phase ok segs s0 tl pl hwf hlast]
    rw [post_phase ok postTicks _ rfl (by simpa using hded) (by simpa using hfire)]
  · intro s t p
    rfl

/-- Claim C4: when the settle timer elapses, a payload equal to the last
successfully applied one is dropped with no dispatch; a successful dispatch
makes the payload the new baseline while a failed dispatch leaves the
baseline unchanged; and dispatching the same payload twice with no
interleaving intent yields exactly one escalator invocation. -/
theorem c4_idempotence (ok : String → Bool) :
    (∀ (s : CoState) (t : Nat), s.timerOn = true →
      s.lastApplied = some s.payload → s.lastChange + PER_ZONE_DELAY_US ≤ t →
      coStep ok s (.tick t) = { s with timerOn := false })
    ∧ (∀ (s : CoState) (t : Nat), s.timerOn = true →
      s.lastApplied ≠ some s.payload → ok s.payload = true →
      s.lastChange + PER_ZONE_DELAY_US ≤ t →
      coStep ok s (.tick t)
        = { s with
            timerOn := false,
            dispatches := s.dispatches ++ [s.payload],
            lastApplied := some s.payload })
    ∧ (∀ (s : CoState) (t : Nat), s.timerOn = true →
      s.lastApplied ≠ some s.payload → ok s.payload = false →
      s.lastChange + PER_ZONE_DELAY_US ≤ t →
      coStep ok s (.tick t)
        = { s with
            timerOn := false,
            dispatches := s.dispatches ++ [s.payload] })
    ∧ (∀ (s0 : CoState) (p : String) (t1 τ1 t2 τ2 : Nat),
      s0.lastApplied ≠ some p → ok p = true →
      t1 + PER_ZONE_DELAY_US ≤ τ1 → t2 + PER_ZONE_DELAY_US ≤ τ2 →
      (coRun ok s0 [.touch t1 p, .tick τ1, .touch t2 p, .tick τ2]).dispatches
        = s0.dispatches ++ [p]) := by
  have hdrop : ∀ (s : CoState) (t : Nat), s.timerOn = true →
      s.lastApplied = some s.payload → s.lastChange + PER_ZONE_DELAY_US ≤ t →
      coStep ok s (.tick t) = { s with timerOn := false } := by
    intro s t hon heq hf
    simp only [coStep]
    rw [if_pos hon, if_pos hf]
    unfold applyPerZoneNow
    rw [if_pos heq]
  have hsucc : ∀ (s : CoState) (t : Nat), s.timerOn = true →
      s.lastApplied ≠ some s.payload → ok s.payload = true →
      s.lastChange + PER_ZONE_DELAY_US ≤ t →
      coStep ok s (.tick t)
        = { s with
            timerOn := false,
            dispatches := s.dispatches ++ [s.payload],
            lastApplied := some s.payload } := by
    intro s t hon hne hok hf
    simp only [coStep]
    rw [if_pos hon, if_pos hf]
    unfold applyPerZoneNow
    rw [if_neg hne, if_pos hok]
  have hfailk : ∀ (s : CoState) (t : Nat), s.timerOn = true →
      s.lastApplied ≠ some s.payload → ok s.payload = false →
      s.lastChange + PER_ZONE_DELAY_US ≤ t →
      coStep ok s (.tick t)
        = { s with
            timerOn := false,
            dispatches := s.dispatches ++ [s.payload] } := by
    intro s t hon hne hok hf
    simp only [coStep]
    rw [if_pos hon, if_pos hf]
    unfold applyPerZoneNow
    rw [if_neg hne, if_neg (by rw [hok]; exact Bool.false_ne_true)]
  refine ⟨hdrop, hsucc, hfailk, ?_⟩
  intro s0 p t1 τ1 t2 τ2 hne hok h1 h2
  show (coStep ok (coStep ok (coStep ok (coStep ok s0 (.touch t1 p))
    (.tick τ1)) (.touch t2 p)) (.tick τ2)).dispatches = s0.dispatches ++ [p]
  simp [coStep, applyPerZoneNow, hne, hok, h1, h2]


/-- Claim C3, witness: a two-intent burst (gap 350 ms) with polls every
100 ms dispatches exactly once, carrying the second payload. -/
theorem c3_witness :
    (burstWF [(0, "a", [100000, 200000, 300000]), (350000, "b", [])] = true
      ∧ [(0, "a", [100000, 200000, 300000]), (350000, "b", [])].getLast?
          = some (350000, "b", [])
      ∧ (∃ τ ∈ [450000, 550000, 650000, 750000],
          350000 + PER_ZONE_DELAY_US ≤ τ)
      ∧ (⟨0, false, "", none, []⟩ : CoState).lastApplied ≠ some "b")
    ∧ ((coRun (fun _ => true) ⟨0, false, "", none, []⟩
          (burstEvents [(0, "a", [100000, 200000, 300000]), (350000, "b", [])]
            ++ [450000, 550000, 650000, 750000].map CoEv.tick)).dispatches
        = (⟨0, false, "", none, []⟩ : CoState).dispatches ++ ["b"]
      ∧ ∀ (s : CoState) (t : Nat) (p : String),
          coStep (fun _ => true) s (.touch t p)
            = { s with lastChange := t, payload := p, timerOn := true }) :=
  ⟨⟨by decide, by decide, by decide, by decide⟩,
   c3_debounce (fun _ => true)
     [(0, "a", [100000, 200000, 300000]), (350000, "b", [])]
     350000 "b" [450000, 550000, 650000, 750000] ⟨0, false, "", none, []⟩
     (by decide) (by decide) (by decide) (by decide)⟩

/-- Claim C4, witness: two dispatches of the same payload with no
interleaving intent produce a single escalator invocation. -/
theorem c4_witness :
    ((⟨0, false, "x", none, []⟩ : CoState).lastApplied ≠ some "p"
      ∧ 0 + PER_ZONE_DELAY_US ≤ 400000
      ∧ 500000 + PER_ZONE_DELAY_US ≤ 900000)
    ∧ (coRun (fun _ => true) ⟨0, false, "x", none, []⟩
          [.touch 0 "p", .tick 400000, .touch 500000 "p", .tick 900000]).dispatches
        = (⟨0, false, "x", none, []⟩ : CoState).dispatches ++ ["p"] :=
  ⟨⟨by decide, by decide, by decide⟩,
   (c4_idempotence (fun _ => true)).2.2.2 ⟨0, false, "x", none, []⟩ "p"
     0 400000 500000 900000 (by decide) rfl (by decide) (by decide)⟩

/-! ### Claim C10: single fan value mirrors to both fans -/

/-- Claim C10: with only one of the CPU and GPU values provided, the
missing one is set equal to the provided one after normalization, and a
single positional value applies to both fans. -/
theorem c10_fan_mirror (v : String) (i : Int) (fs : FS) (p : String)
    (hfp : fanPathModel fs = some p)
    (hp : fs.present p = true) (hw : fs.writable p = true)
    (hv : parse_percent_or_auto v = .ok i) :
    runLeaf (.fanSet [] none (some v)) fs
      = (.ret ["OK: fan set CPU=" ++ toString i ++ " GPU=" ++ toString i],
         [(p, toString i ++ "," ++ toString i ++ "\n")])
    ∧ runLeaf (.fanSet [] (some v) none) fs
      = (.ret ["OK: fan set CPU=" ++ toString i ++ " GPU=" ++ toString i],
         [(p, toString i ++ "," ++ toString i ++ "\n")])
    ∧ runLeaf (.fanSet [v] none none) fs
      = (.ret ["OK: fan set CPU=" ++ toString i ++ " GPU=" ++ toString i],
         [(p, toString i ++ "," ++ toString i ++ "\n")]) := by
  have hts : parse_percent_or_auto (toString i) = .ok i := ppoa_roundtrip hv
  refine ⟨?_, ?_, ?_⟩ <;>
    simp [runLeaf, hfp, hp, hw, hv, hts, pyStr, writeOut]

/-- Claim C10, witness: providing only GPU 50 writes the payload 50,50 to
the fan attribute, changing both fans. -/
theorem c10_witness :
    (fanPathModel fsDemo = some (SENSE_PRED ++ "/fan_speed")
      ∧ fsDemo.present (SENSE_PRED ++ "/fan_speed") = true
      ∧ fsDemo.writable (SENSE_PRED ++ "/fan_speed") = true
      ∧ parse_percent_or_auto "50" = .ok 50)
    ∧ runLeaf (.fanSet [] none (some "50")) fsDemo
        = (.ret ["OK: fan set CPU=" ++ toString (50 : Int)
            ++ " GPU=" ++ toString (50 : Int)],
           [(SENSE_PRED ++ "/fan_speed",
             toString (50 : Int) ++ "," ++ toString (50 : Int) ++ "\n")]) :=
  ⟨⟨by decide, rfl, rfl, by decide⟩,
   (c10_fan_mirror "50" 50 fsDemo (SENSE_PRED ++ "/fan_speed")
     (by decide) rfl rfl (by decide)).1⟩


lemma c9aux_powerGet (fs : FS) : c9Concl .powerGet fs := by
  unfold c9Concl
  refine ⟨?_, ?_, ?_⟩
  · intro hreq
    simp only [requiredOkB] at hreq
    simp [runLeaf, mainExit, hreq]
  · intro _ hval
    simp [validB] at hval
  · intro hreq _
    simp only [requiredOkB] at hreq
    refine ⟨?_, ?_⟩
    · intro t ht
      simp [writeTargetOf] at ht
    · intro _
      simp [runLeaf, hreq, mainExit, readTargetOf]

lemma c9aux_powerList (fs : FS) : c9Concl .powerList fs := by
  unfold c9Concl
  refine ⟨?_, ?_, ?_⟩
  · intro hreq
    simp only [requiredOkB] at hreq
    simp [runLeaf, mainExit, hreq]
  · intro _ hval
    simp [validB] at hval
  · intro hreq _
    refine ⟨fun t ht => by simp [writeTargetOf] at ht, fun _ => ?_⟩
    simp only [requiredOkB] at hreq
    simp [runLeaf, hreq, mainExit, readTargetOf]

lemma c9aux_perZoneGet (fs : FS) : c9Concl .rgbPerZoneGet fs := by
  unfold c9Concl
  refine ⟨?_, ?_, ?_⟩
  · intro hreq
    simp only [requiredOkB] at hreq
    simp [runLeaf, mainExit, hreq]
  · intro _ hval
    simp [validB] at hval
  · intro hreq _
    refine ⟨fun t ht => by simp [writeTargetOf] at ht, fun _ => ?_⟩
    simp only [requiredOkB] at hreq
    simp [runLeaf, hreq, mainExit, readTargetOf]

lemma c9aux_effectGet (fs : FS) : c9Concl .rgbEffectGet fs := by
  unfold c9Concl
  refine ⟨?_, ?_, ?_⟩
  · intro hreq
    simp only [requiredOkB] at hreq
    simp [runLeaf, mainExit, hreq]
  · intro _ hval
    simp [validB] at hval
  · intro hreq _
    refine ⟨fun t ht => by simp [writeTargetOf] at ht, fun _ => ?_⟩
    simp only [requiredOkB] at hreq
    simp [runLeaf, hreq, mainExit, readTargetOf]

lemma c9aux_logoGet (fs : FS) : c9Concl .logoGet fs := by
  unfold c9Concl
  refine ⟨?_, ?_, ?_⟩
  · intro hreq
    simp only [requiredOkB] at hreq
    simp [runLeaf, mainExit, hreq]
  · intro _ hval
    simp [validB] at hval
  · intro hreq _
    refine ⟨fun t ht => by simp [writeTargetOf] at ht, fun _ => ?_⟩
    simp only [requiredOkB] at hreq
    simp [runLeaf, hreq, mainExit, readTargetOf]

lemma c9aux_fanGet (fs : FS) : c9Concl .fanGet fs := by
  unfold c9Concl
  refine ⟨?_, ?_, ?_⟩
  · intro hreq
    simp only [requiredOkB] at hreq
    rcases hfp : fanPathModel fs with _ | p
    · simp [runLeaf, mainExit, hfp]
    · rw [hfp] at hreq
      simp only at hreq
      simp [runLeaf, mainExit, hfp, hreq]
  · intro _ hval
    simp [validB] at hval
  · intro hreq _
    refine ⟨fun t ht => ?_, fun _ => ?_⟩
    · simp [writeTargetOf] at ht
    · simp only [requiredOkB] at hreq
      rcases hfp : fanPathModel fs with _ | p
      · rw [hfp] at hreq; simp at hreq
      · rw [hfp] at hreq
        simp only at hreq
        simp [runLeaf, hfp, hreq, mainExit, readTargetOf]

lemma c9aux_batteryGet (fs : FS) : c9Concl .batteryGet fs := by
  unfold c9Concl
  refine ⟨?_, ?_, ?_⟩
  · intro hreq
    simp only [requiredOkB] at hreq
    rcases hfp : batteryPathModel fs with _ | p
    · simp [runLeaf, mainExit, hfp]
    · rw [hfp] at hreq
      simp only at hreq
      simp [runLeaf, mainExit, hfp, hreq]
  · intro _ hval
    simp [validB] at hval
  · intro hreq _
    refine ⟨fun t ht => ?_, fun _ => ?_⟩
    · simp [writeTargetOf] at ht
    · simp only [requiredOkB] at hreq
      rcases hfp : batteryPathModel fs with _ | p
      · rw [hfp] at hreq; simp at hreq
      · rw [hfp] at hreq
        simp only at hreq
        simp [runLeaf, hfp, hreq, mainExit, readTargetOf]


lemma strStarts_OK_fan (x : String) :
    strStarts ("OK: fan set CPU=" ++ x) "OK: " = true := rfl

lemma mapExcept_ok_length {f : α → Except ε β} :
    ∀ {l : List α} {ys : List β}, mapExcept f l = .ok ys → ys.length = l.length := by
  intro l
  induction l with
  | nil => intro ys h; cases h; rfl
  | cons x xs ih =>
    intro ys h
    unfold mapExcept at h
    rcases hf : f x with e | y <;> rw [hf] at h
    · cases h
    · rcases hm : mapExcept f xs with e' | zs <;> rw [hm] at h
      · cases h
      · cases h
        simp [ih hm]

lemma unknownModeMsg_pyInt_none (m : String) : pyInt (unknownModeMsg m) = none := by
  apply pyInt_none_of_data_head (unknownModeMsg m) 'U'
    ("nknown mode '".data ++ (m ++ "'. Use one of: static, breathing, neon, wave, shifting, zoom, meteor, twinkling or 0-7.").data)
  · rfl
  · rfl
  · rfl
  · decide
  · decide

lemma modeErr_pyInt_none {m e : String} (h : modeIdOrErr m = .error e) :
    pyInt e = none := by
  unfold modeIdOrErr resolveModeId at h
  rcases hl : MODE_NAME_TO_ID.lookup (pyLower m) with _ | id <;> rw [hl] at h
  · rcases hi : pyInt m with _ | n <;> rw [hi] at h
    · dsimp only at h
      cases h
      exact unknownModeMsg_pyInt_none m
    · dsimp only at h
      split at h
      · cases h
        decide
      · cases h
  · dsimp only at h
    split at h
    · cases h
      decide
    · cases h

lemma unsupportedProfile_pyInt_none (m b c : String) :
    pyInt ("Unsupported profile '" ++ m ++ b ++ c) = none := by
  apply pyInt_none_of_data_head _ 'U'
    ((("nsupported profile '".data ++ m.data) ++ b.data) ++ c.data)
  · rfl
  · rfl
  · rfl
  · decide
  · decide

lemma c9aux_fanAuto (fs : FS) : c9Concl .fanAuto fs := by
  unfold c9Concl
  refine ⟨?_, ?_, ?_⟩
  · intro hreq
    simp only [requiredOkB] at hreq
    rcases hfp : fanPathModel fs with _ | p
    · simp [runLeaf, mainExit, hfp]
    · rw [hfp] at hreq
      simp only at hreq
      simp [runLeaf, mainExit, hfp, hreq]
  · intro _ hval
    simp [validB] at hval
  · intro hreq _
    simp only [requiredOkB] at hreq
    refine ⟨fun t ht => ?_, fun hnone => ?_⟩
    · simp only [writeTargetOf] at ht
      rcases hfp : fanPathModel fs with _ | p
      · rw [hfp] at ht; cases ht
      · rw [hfp] at ht
        cases ht
        rw [hfp] at hreq
        simp only at hreq
        refine ⟨fun hw => ?_, fun hw => ?_⟩
        · simp [runLeaf, hfp, hreq, hw, writeOut, mainExit,
            show strStarts "OK: fan control set to auto" "OK: " = true from rfl]
        · simp [runLeaf, hfp, hreq, hw, writeOut, mainExit]
    · simp only [writeTargetOf] at hnone
      rcases hfp : fanPathModel fs with _ | p
      · rw [hfp] at hreq; simp at hreq
      · rw [hfp] at hnone; cases hnone

lemma c9aux_batteryOn (fs : FS) : c9Concl .batteryOn fs := by
  unfold c9Concl
  refine ⟨?_, ?_, ?_⟩
  · intro hreq
    simp only [requiredOkB] at hreq
    rcases hfp : batteryPathModel fs with _ | p
    · simp [runLeaf, mainExit, hfp]
    · rw [hfp] at hreq
      simp only at hreq
      simp [runLeaf, mainExit, hfp, hreq]
  · intro _ hval
    simp [validB] at hval
  · intro hreq _
    simp only [requiredOkB] at hreq
    refine ⟨fun t ht => ?_, fun hnone => ?_⟩
    · simp only [writeTargetOf] at ht
      rcases hfp : batteryPathModel fs with _ | p
      · rw [hfp] at ht; cases ht
      · rw [hfp] at ht
        cases ht
        rw [hfp] at hreq
        simp only at hreq
        refine ⟨fun hw => ?_, fun hw => ?_⟩
        · simp [runLeaf, hfp, hreq, hw, writeOut, mainExit,
            show strStarts "OK: battery limit ON (80%)" "OK: " = true from rfl]
        · simp [runLeaf, hfp, hreq, hw, writeOut, mainExit]
    · simp only [writeTargetOf] at hnone
      rcases hfp : batteryPathModel fs with _ | p
      · rw [hfp] at hreq; simp at hreq
      · rw [hfp] at hnone; cases hnone

lemma c9aux_batteryOff (fs : FS) : c9Concl .batteryOff fs := by
  unfold c9Concl
  refine ⟨?_, ?_, ?_⟩
  · intro hreq
    simp only [requiredOkB] at hreq
    rcases hfp : batteryPathModel fs with _ | p
    · simp [runLeaf, mainExit, hfp]
    · rw [hfp] at hreq
      simp only at hreq
      simp [runLeaf, mainExit, hfp, hreq]
  · intro _ hval
    simp [validB] at hval
  · intro hreq _
    simp only [requiredOkB] at hreq
    refine ⟨fun t ht => ?_, fun hnone => ?_⟩
    · simp only [writeTargetOf] at ht
      rcases hfp : batteryPathModel fs with _ | p
      · rw [hfp] at ht; cases ht
      · rw [hfp] at ht
        cases ht
        rw [hfp] at hreq
        simp only at hreq
        refine ⟨fun hw => ?_, fun hw => ?_⟩
        · simp [runLeaf, hfp, hreq, hw, writeOut, mainExit,
            show strStarts "OK: battery limit OFF (100%)" "OK: " = true from rfl]
        · simp [runLeaf, hfp, hreq, hw, writeOut, mainExit]
    · simp only [writeTargetOf] at hnone
      rcases hfp : batteryPathModel fs with _ | p
      · rw [hfp] at hreq; simp at hreq
      · rw [hfp] at hnone; cases hnone

lemma c9aux_batterySet (fs : FS) (m : String) : c9Concl (.batterySet m) fs := by
  unfold c9Concl
  refine ⟨?_, ?_, ?_⟩
  · intro hreq
    simp only [requiredOkB] at hreq
    rcases hfp : batteryPathModel fs with _ | p
    · simp [runLeaf, mainExit, hfp]
    · rw [hfp] at hreq
      simp only at hreq
      simp [runLeaf, mainExit, hfp, hreq]
  · intro hreq hval
    simp only [requiredOkB] at hreq
    simp only [validB] at hval
    rcases hpo : parse_on_off m with e | v
    · have he : e = "Expected on/off (or 1/0, true/false, yes/no)" := by
        simp only [parse_on_off] at hpo
        split at hpo
        · cases hpo
        · split at hpo
          · cases hpo
          · cases hpo
            rfl
      rcases hfp : batteryPathModel fs with _ | p
      · rw [hfp] at hreq; simp at hreq
      · rw [hfp] at hreq
        simp only at hreq
        subst he
        simp [runLeaf, hfp, hreq, hpo, mainExit,
          show pyInt "Expected on/off (or 1/0, true/false, yes/no)" = none from by decide]
    · rw [hpo] at hval
      simp [exceptOk] at hval
  · intro hreq hval
    simp only [requiredOkB] at hreq
    simp only [validB] at hval
    rcases hpo : parse_on_off m with e | v
    · rw [hpo] at hval
      simp [exceptOk] at hval
    · refine ⟨fun t ht => ?_, fun hnone => ?_⟩
      · simp only [writeTargetOf] at ht
        rcases hfp : batteryPathModel fs with _ | p
        · rw [hfp] at ht; cases ht
        · rw [hfp] at ht
          cases ht
          rw [hfp] at hreq
          simp only at hreq
          refine ⟨fun hw => ?_, fun hw => ?_⟩
          · by_cases hv1 : v = 1 <;>
              simp [runLeaf, hfp, hreq, hpo, hw, hv1, writeOut, mainExit,
                show strStarts "OK: battery limit set to ON (80%)" "OK: " = true from rfl,
                show strStarts "OK: battery limit set to OFF (100%)" "OK: " = true from rfl]
          · simp [runLeaf, hfp, hreq, hpo, hw, writeOut, mainExit]
      · simp only [writeTargetOf] at hnone
        rcases hfp : batteryPathModel fs with _ | p
        · rw [hfp] at hreq; simp at hreq
        · rw [hfp] at hnone; cases hnone


lemma c9aux_powerSet (fs : FS) (m : String) : c9Concl (.powerSet m) fs := by
  unfold c9Concl
  refine ⟨?_, ?_, ?_⟩
  · intro hreq
    simp only [requiredOkB] at hreq
    simp [runLeaf, mainExit, hreq]
  · intro hreq hval
    simp only [requiredOkB] at hreq
    simp only [validB, Bool.not_eq_false', Bool.and_eq_true] at hval
    obtain ⟨⟨h1, h2⟩, h3⟩ := hval
    rw [Bool.not_eq_true'] at h2 h3
    have h2' : ¬ powerChoices fs = [] := by
      intro hnil
      rw [hnil] at h2
      simp at h2
    have h3' : m ∉ powerChoices fs := by
      intro hmem
      have he : (powerChoices fs).elem m = true := List.elem_iff.mpr hmem
      rw [show (powerChoices fs).contains m = (powerChoices fs).elem m from rfl,
        he] at h3
      cases h3
    have hpi := unsupportedProfile_pyInt_none m "'. Choices: "
      (String.intercalate ", " (sortedChoices fs))
    simp [runLeaf, hreq, mainExit, hpi, h1, h2', h3']
  · intro hreq hval
    simp only [requiredOkB] at hreq
    simp only [validB, Bool.not_eq_true'] at hval
    have hv' : ¬((fs.present PLATFORM_PROFILE_CHOICES = true
        ∧ ¬ powerChoices fs = []) ∧ m ∉ powerChoices fs) := by
      rintro ⟨⟨h1, h2⟩, h3⟩
      rw [h1, Bool.true_and] at hval
      have h2b : (powerChoices fs).isEmpty = false := by
        cases hpc : powerChoices fs
        · exact absurd hpc h2
        · rfl
      rw [h2b] at hval
      simp only [Bool.not_false, Bool.true_and] at hval
      rw [Bool.not_eq_false'] at hval
      exact h3 (List.elem_iff.mp hval)
    refine ⟨fun t ht => ?_, fun hnone => ?_⟩
    · simp only [writeTargetOf] at ht
      cases ht
      refine ⟨fun hw => ?_, fun hw => ?_⟩
      · simp [runLeaf, hreq, hv', hw, writeOut, mainExit,
          show strStarts "OK: power profile set" "OK: " = true from rfl]
      · simp [runLeaf, hreq, hv', hw, writeOut, mainExit]
    · simp [writeTargetOf] at hnone

lemma c9aux_logoSet (fs : FS) (c : String) (b : Int) (on_ off_ : Bool)
    (hargs : (on_ && off_) = false) : c9Concl (.logoSet c b on_ off_) fs := by
  unfold c9Concl
  refine ⟨?_, ?_, ?_⟩
  · intro hreq
    simp only [requiredOkB] at hreq
    simp [runLeaf, mainExit, hargs, hreq]
  · intro hreq hval
    simp only [requiredOkB] at hreq
    simp only [validB] at hval
    rcases hpc : parse_hex_color c with e | hc
    · simp [runLeaf, mainExit, hargs, hreq, hpc]
    · rw [hpc] at hval
      simp only [exceptOk, Bool.true_and] at hval
      simp [runLeaf, mainExit, hargs, hreq, hpc, hval,
        show pyInt "Brightness must be 0-100" = none from by decide]
  · intro hreq hval
    simp only [requiredOkB] at hreq
    simp only [validB] at hval
    rcases hpc : parse_hex_color c with e | hc
    · rw [hpc] at hval
      simp [exceptOk] at hval
    · rw [hpc] at hval
      simp only [exceptOk, Bool.true_and] at hval
      refine ⟨fun t ht => ?_, fun hnone => ?_⟩
      · simp only [writeTargetOf] at ht
        cases ht
        refine ⟨fun hw => ?_, fun hw => ?_⟩
        · simp [runLeaf, hargs, hreq, hpc, hval, hw, writeOut, mainExit,
            show strStarts "OK: back logo updated" "OK: " = true from rfl]
        · simp [runLeaf, hargs, hreq, hpc, hval, hw, writeOut, mainExit]
      · simp [writeTargetOf] at hnone


lemma c9aux_perZone (fs : FS) (colors : List String) (b : Int)
    (hargs : colors.isEmpty = false) : c9Concl (.rgbPerZone colors b) fs := by
  have hne0 : colors.length ≠ 0 := by
    cases colors
    · simp at hargs
    · simp
  unfold c9Concl
  refine ⟨?_, ?_, ?_⟩
  · intro hreq
    simp only [requiredOkB] at hreq
    simp [runLeaf, mainExit, hreq]
  · intro hreq hval
    simp only [requiredOkB] at hreq
    simp only [validB] at hval
    rcases hm : mapExcept parse_hex_color colors with e | ys
    · simp [runLeaf, hreq, hm, mainExit]
    · have hall : colors.all (fun c => exceptOk (parse_hex_color c)) = true := by
        rw [← exceptOk_mapExcept, hm]
        rfl
      rw [hall, Bool.true_and] at hval
      have hlen := mapExcept_ok_length hm
      by_cases hL : ((colors.length == 1) || (colors.length == 4)) = true
      · rw [hL, Bool.true_and] at hval
        have hL2 : colors.length = 1 ∨ colors.length = 4 := by simpa using hL
        rcases hL2 with h1' | h4'
        · simp [runLeaf, hreq, hm, hlen, h1', hval, mainExit,
            show pyInt "Brightness must be 0-100" = none from by decide]
        · simp [runLeaf, hreq, hm, hlen, h4', hval, mainExit,
            show pyInt "Brightness must be 0-100" = none from by decide]
      · have h1 : colors.length ≠ 1 := by
          intro h
          exact hL (by simp [h])
        have h4 : colors.length ≠ 4 := by
          intro h
          exact hL (by simp [h])
        simp [runLeaf, hreq, hm, hlen, hne0, h1, h4, mainExit,
          show pyInt "Provide exactly 1 or 4 colors (RRGGBB)." = none from by decide]
  · intro hreq hval
    simp only [requiredOkB] at hreq
    simp only [validB] at hval
    rw [Bool.and_eq_true, Bool.and_eq_true] at hval
    obtain ⟨⟨hall, hL⟩, hbr⟩ := hval
    rcases hm : mapExcept parse_hex_color colors with e | ys
    · rw [← exceptOk_mapExcept, hm] at hall
      cases hall
    · have hlen := mapExcept_ok_length hm
      rw [Bool.and_eq_true, decide_eq_true_eq, decide_eq_true_eq] at hbr
      refine ⟨fun t ht => ?_, fun hnone => ?_⟩
      · simp only [writeTargetOf] at ht
        cases ht
        refine ⟨fun hw => ?_, fun hw => ?_⟩
        · have hL2 : colors.length = 1 ∨ colors.length = 4 := by simpa using hL
          rcases hL2 with h1' | h4'
          · simp [runLeaf, hreq, hm, hlen, h1', hbr.1, hbr.2, hw, writeOut, mainExit,
              show strStarts "OK: per-zone colors set" "OK: " = true from rfl]
          · simp [runLeaf, hreq, hm, hlen, h4', hbr.1, hbr.2, hw, writeOut, mainExit,
              show strStarts "OK: per-zone colors set" "OK: " = true from rfl]
        · have hL2 : colors.length = 1 ∨ colors.length = 4 := by simpa using hL
          rcases hL2 with h1' | h4'
          · simp [runLeaf, hreq, hm, hlen, h1', hbr.1, hbr.2, hw, writeOut, mainExit]
          · simp [runLeaf, hreq, hm, hlen, h4', hbr.1, hbr.2, hw, writeOut, mainExit]
      · simp [writeTargetOf] at hnone

lemma c9aux_effect (fs : FS) (m : String) (s b d : Int) (c : Option String) :
    c9Concl (.rgbEffect m s b d c) fs := by
  unfold c9Concl
  refine ⟨?_, ?_, ?_⟩
  · intro hreq
    simp only [requiredOkB] at hreq
    simp [runLeaf, mainExit, hreq]
  · intro hreq hval
    simp only [requiredOkB] at hreq
    simp only [validB] at hval
    rcases hmode : modeIdOrErr m with e | n
    · simp [runLeaf, hreq, hmode, mainExit, modeErr_pyInt_none hmode]
    · rw [hmode] at hval
      simp only [exceptOk, Bool.true_and] at hval
      by_cases hS : (decide ((0 : Int) ≤ s) && decide (s ≤ 9)) = true
      · rw [hS, Bool.true_and] at hval
        by_cases hB : (decide ((0 : Int) ≤ b) && decide (b ≤ 100)) = true
        · rw [hB, Bool.true_and] at hval
          by_cases hD : (decide ((1 : Int) ≤ d) && decide (d ≤ 2)) = true
          · rw [hD, Bool.true_and] at hval
            rcases c with _ | t
            · simp at hval
            · dsimp only at hval
              by_cases ht : t = ""
              · rw [ht] at hval
                simp at hval
              · rcases hparse : parse_hex_color t with e | hc
                · simp [runLeaf, hreq, hmode, hS, hB, hD, ht, hparse, mainExit,
                    Except.map]
                · rw [hparse] at hval
                  simp [ht] at hval
          · rw [Bool.not_eq_true] at hD
            rw [hD, Bool.false_and] at hval
            simp [runLeaf, hreq, hmode, hS, hB, hD, mainExit,
              show pyInt "Direction must be 1 or 2" = none from by decide]
        · rw [Bool.not_eq_true] at hB
          rw [hB, Bool.false_and] at hval
          simp [runLeaf, hreq, hmode, hS, hB, mainExit,
            show pyInt "Brightness must be 0-100" = none from by decide]
      · rw [Bool.not_eq_true] at hS
        rw [hS, Bool.false_and] at hval
        simp [runLeaf, hreq, hmode, hS, mainExit,
          show pyInt "Speed must be 0-9" = none from by decide]
  · intro hreq hval
    simp only [requiredOkB] at hreq
    simp only [validB] at hval
    rcases hmode : modeIdOrErr m with e | n
    · rw [hmode] at hval
      simp [exceptOk] at hval
    · rw [hmode] at hval
      simp only [exceptOk, Bool.true_and] at hval
      rw [Bool.and_eq_true, Bool.and_eq_true, Bool.and_eq_true] at hval
      obtain ⟨⟨⟨hS, hB⟩, hD⟩, hcol⟩ := hval
      refine ⟨fun t ht => ?_, fun hnone => ?_⟩
      · simp only [writeTargetOf] at ht
        cases ht
        refine ⟨fun hw => ?_, fun hw => ?_⟩
        · rcases c with _ | tc
          · simp [runLeaf, hreq, hmode, hS, hB, hD, hw, writeOut, mainExit,
              show strStarts "OK: effect set" "OK: " = true from rfl]
          · dsimp only at hcol
            by_cases htc : tc = ""
            · simp [runLeaf, hreq, hmode, hS, hB, hD, htc, hw, writeOut, mainExit,
                show strStarts "OK: effect set" "OK: " = true from rfl]
            · rcases hparse : parse_hex_color tc with e | hc
              · rw [hparse] at hcol
                simp [htc] at hcol
              · simp [runLeaf, hreq, hmode, hS, hB, hD, htc, hparse, hw, writeOut,
                  mainExit, Except.map,
                  show strStarts "OK: effect set" "OK: " = true from rfl]
        · rcases c with _ | tc
          · simp [runLeaf, hreq, hmode, hS, hB, hD, hw, writeOut, mainExit]
          · dsimp only at hcol
            by_cases htc : tc = ""
            · simp [runLeaf, hreq, hmode, hS, hB, hD, htc, hw, writeOut, mainExit]
            · rcases hparse : parse_hex_color tc with e | hc
              · rw [hparse] at hcol
                simp [htc] at hcol
              · simp [runLeaf, hreq, hmode, hS, hB, hD, htc, hparse, hw, writeOut,
                  mainExit, Except.map]
      · simp [writeTargetOf] at hnone


lemma strStarts_OK_fan2 (a b : String) :
    strStarts ("OK: fan set CPU=" ++ a ++ " GPU=" ++ b) "OK: " = true := rfl

lemma c9aux_fanSet (fs : FS) (values : List String) (cpu gpu : Option String)
    (hargs : (values.isEmpty && cpu.isNone && gpu.isNone) = false) :
    c9Concl (.fanSet values cpu gpu) fs := by
  unfold c9Concl
  refine ⟨?_, ?_, ?_⟩
  · intro hreq
    simp only [requiredOkB] at hreq
    rcases hfp : fanPathModel fs with _ | p
    · simp [runLeaf, mainExit, hfp]
    · rw [hfp] at hreq
      simp only at hreq
      simp [runLeaf, mainExit, hfp, hreq]
  · intro hreq hval
    simp only [requiredOkB] at hreq
    rcases hfp : fanPathModel fs with _ | p
    · rw [hfp] at hreq; simp at hreq
    · rw [hfp] at hreq
      simp only at hreq
      simp only [validB] at hval
      rcases values with _ | ⟨v1, _ | ⟨v2, _ | ⟨v3, vrest⟩⟩⟩
      · rcases cpu with _ | cv <;> rcases gpu with _ | gv
        · simp at hargs
        · rcases hpg : parse_percent_or_auto gv with e | i
          · simp [runLeaf, hfp, hreq, hpg, pyStr, mainExit]
          · dsimp only at hval; rw [hpg] at hval
            simp [exceptOk] at hval
        · rcases hpc : parse_percent_or_auto cv with e | i
          · simp [runLeaf, hfp, hreq, hpc, pyStr, mainExit]
          · dsimp only at hval; rw [hpc] at hval
            simp [exceptOk] at hval
        · rcases hpc : parse_percent_or_auto cv with e | i
          · simp [runLeaf, hfp, hreq, hpc, pyStr, mainExit]
          · rcases hpg : parse_percent_or_auto gv with e | j
            · simp [runLeaf, hfp, hreq, hpc, hpg, pyStr, mainExit]
            · dsimp only at hval; rw [hpc, hpg] at hval
              simp [exceptOk] at hval
      · rcases hp1 : parse_percent_or_auto v1 with e | i
        · simp [runLeaf, hfp, hreq, hp1, mainExit]
        · dsimp only at hval; rw [hp1] at hval
          simp [exceptOk] at hval
      · rcases hp1 : parse_percent_or_auto v1 with e | i
        · simp [runLeaf, hfp, hreq, hp1, mainExit]
        · rcases hp2 : parse_percent_or_auto v2 with e | j
          · simp [runLeaf, hfp, hreq, hp1, hp2, mainExit]
          · dsimp only at hval; rw [hp1, hp2] at hval
            simp [exceptOk] at hval
      · simp [runLeaf, hfp, hreq, mainExit,
          show pyInt "Provide one or two percentage values" = none from by decide]
  · intro hreq hval
    simp only [requiredOkB] at hreq
    rcases hfp : fanPathModel fs with _ | p
    · rw [hfp] at hreq; simp at hreq
    · rw [hfp] at hreq
      simp only at hreq
      simp only [validB] at hval
      refine ⟨fun t ht => ?_, fun hnone => ?_⟩
      · simp only [writeTargetOf] at ht
        rw [hfp] at ht
        cases ht
        have main : ∀ hw : fs.writable p = true,
            mainExit (runLeaf (.fanSet values cpu gpu) fs).1 = 0
            ∧ ∃ l, (runLeaf (.fanSet values cpu gpu) fs).1 = .ret [l]
                ∧ strStarts l "OK: " = true := by
          intro hw
          rcases values with _ | ⟨v1, _ | ⟨v2, _ | ⟨v3, vrest⟩⟩⟩
          · rcases cpu with _ | cv <;> rcases gpu with _ | gv
            · simp at hargs
            · rcases hpg : parse_percent_or_auto gv with e | i
              · dsimp only at hval; rw [hpg] at hval
                simp [exceptOk] at hval
              · have hrt := ppoa_roundtrip hpg
                simp [runLeaf, hfp, hreq, hpg, hrt, pyStr, writeOut, hw, mainExit,
                  strStarts_OK_fan2]
            · rcases hpc : parse_percent_or_auto cv with e | i
              · dsimp only at hval; rw [hpc] at hval
                simp [exceptOk] at hval
              · have hrt := ppoa_roundtrip hpc
                simp [runLeaf, hfp, hreq, hpc, hrt, pyStr, writeOut, hw, mainExit,
                  strStarts_OK_fan2]
            · rcases hpc : parse_percent_or_auto cv with e | i
              · dsimp only at hval; rw [hpc] at hval
                simp [exceptOk] at hval
              · rcases hpg : parse_percent_or_auto gv with e | j
                · dsimp only at hval; rw [hpc, hpg] at hval
                  simp [exceptOk] at hval
                · simp [runLeaf, hfp, hreq, hpc, hpg, pyStr, writeOut, hw, mainExit,
                    strStarts_OK_fan2]
          · rcases hp1 : parse_percent_or_auto v1 with e | i
            · dsimp only at hval; rw [hp1] at hval
              simp [exceptOk] at hval
            · have hrt := ppoa_roundtrip hp1
              simp [runLeaf, hfp, hreq, hp1, hrt, pyStr, writeOut, hw, mainExit,
                strStarts_OK_fan2]
          · rcases hp1 : parse_percent_or_auto v1 with e | i
            · dsimp only at hval; rw [hp1] at hval
              simp [exceptOk] at hval
            · rcases hp2 : parse_percent_or_auto v2 with e | j
              · dsimp only at hval; rw [hp1, hp2] at hval
                simp [exceptOk] at hval
              · have hrt1 := ppoa_roundtrip hp1
                have hrt2 := ppoa_roundtrip hp2
                simp [runLeaf, hfp, hreq, hp1, hp2, hrt1, hrt2, pyStr, writeOut,
                  hw, mainExit, strStarts_OK_fan2]
          · simp at hval
        have mainDenied : ∀ hw : fs.writable p = false,
            mainExit (runLeaf (.fanSet values cpu gpu) fs).1 = 3
            ∧ (runLeaf (.fanSet values cpu gpu) fs).2 = [] := by
          intro hw
          rcases values with _ | ⟨v1, _ | ⟨v2, _ | ⟨v3, vrest⟩⟩⟩
          · rcases cpu with _ | cv <;> rcases gpu with _ | gv
            · simp at hargs
            · rcases hpg : parse_percent_or_auto gv with e | i
              · dsimp only at hval; rw [hpg] at hval
                simp [exceptOk] at hval
              · have hrt := ppoa_roundtrip hpg
                simp [runLeaf, hfp, hreq, hpg, hrt, pyStr, writeOut, hw, mainExit]
            · rcases hpc : parse_percent_or_auto cv with e | i
              · dsimp only at hval; rw [hpc] at hval
                simp [exceptOk] at hval
              · have hrt := ppoa_roundtrip hpc
                simp [runLeaf, hfp, hreq, hpc, hrt, pyStr, writeOut, hw, mainExit]
            · rcases hpc : parse_percent_or_auto cv with e | i
              · dsimp only at hval; rw [hpc] at hval
                simp [exceptOk] at hval
              · rcases hpg : parse_percent_or_auto gv with e | j
                · dsimp only at hval; rw [hpc, hpg] at hval
                  simp [exceptOk] at hval
                · simp [runLeaf, hfp, hreq, hpc, hpg, pyStr, writeOut, hw, mainExit]
          · rcases hp1 : parse_percent_or_auto v1 with e | i
            · dsimp only at hval; rw [hp1] at hval
              simp [exceptOk] at hval
            · have hrt := ppoa_roundtrip hp1
              simp [runLeaf, hfp, hreq, hp1, hrt, pyStr, writeOut, hw, mainExit]
          · rcases hp1 : parse_percent_or_auto v1 with e | i
            · dsimp only at hval; rw [hp1] at hval
              simp [exceptOk] at hval
            · rcases hp2 : parse_percent_or_auto v2 with e | j
              · dsimp only at hval; rw [hp1, hp2] at hval
                simp [exceptOk] at hval
              · have hrt1 := ppoa_roundtrip hp1
                have hrt2 := ppoa_roundtrip hp2
                simp [runLeaf, hfp, hreq, hp1, hp2, hrt1, hrt2, pyStr, writeOut,
                  hw, mainExit]
          · simp at hval
        exact ⟨main, mainDenied⟩
      · simp only [writeTargetOf] at hnone
        rw [hfp] at hnone
        cases hnone


/-- Claim C9: every CLI leaf command exits 0 on success printing an OK line
or the raw attribute text, 2 when a required attribute path is missing, 3 on
a permission failure when writing an attribute, and 1 for any other error,
validation errors included. -/
theorem c9_exit_codes (cmd : LeafCmd) (fs : FS)
    (hargs : argsProvidedB cmd = true) : c9Concl cmd fs := by
  cases cmd with
  | rgbPerZone colors b =>
    apply c9aux_perZone
    rw [← Bool.not_eq_true']
    exact hargs
  | rgbPerZoneGet => exact c9aux_perZoneGet fs
  | rgbEffect m s b d c => exact c9aux_effect fs m s b d c
  | rgbEffectGet => exact c9aux_effectGet fs
  | powerGet => exact c9aux_powerGet fs
  | powerList => exact c9aux_powerList fs
  | powerSet m => exact c9aux_powerSet fs m
  | logoGet => exact c9aux_logoGet fs
  | logoSet c b on_ off_ =>
    apply c9aux_logoSet
    rw [← Bool.not_eq_true']
    exact hargs
  | fanGet => exact c9aux_fanGet fs
  | fanAuto => exact c9aux_fanAuto fs
  | fanSet values cpu gpu =>
    apply c9aux_fanSet
    rw [← Bool.not_eq_true']
    exact hargs
  | batteryGet => exact c9aux_batteryGet fs
  | batteryOn => exact c9aux_batteryOn fs
  | batteryOff => exact c9aux_batteryOff fs
  | batterySet m => exact c9aux_batterySet fs m

/-- Claim C9, witness: the exit-code classification instantiated for the
battery-on leaf against the all-present writable tree. -/
theorem c9_witness :
    argsProvidedB .batteryOn = true ∧ c9Concl .batteryOn fsDemo :=
  ⟨rfl, c9_exit_codes .batteryOn fsDemo rfl⟩

end Nekro
